import Mathlib

/-!
# Shader.h : the `Shader` helper class over the OpenGL driver

A shallow embedding of `code/04_rigid_body_framework/Shader.h`.

* Part 1 embeds the code of the header (`ReadAllText`, the methods of `Shader`,
  `CreateDefaultShader`) over an arbitrary driver: every OpenGL entry point the
  header calls is a field of `Driver`, and every call is appended, with its
  arguments and with what came back, to the call log of the `World`.
* Part 2 is a reference driver `OpenGL.driver`, a state machine that follows the
  OpenGL 3.3 core specification (the default shaders are `#version 330 core`)
  for the entry points the header uses.  The GLSL compiler, the linker and the
  choice of object names are parameters of it.
* Part 3 defines the observations the statements use (the calls of a
  `CreateFromSource` call in terms of its locals, the programs that are live
  after a call log, the names the reference driver issues to a call and the
  diagnostics in terms of what its compiler and linker say, the driver state
  the calls of a log lead to, sample toolchains and states); part 4 is the
  lemmas and part 5 the claims.

Text is a list of characters, one per `char`.  A `const char*` argument is
modelled by the string it points to.  A `std::string_view` is its characters
together with what its buffer holds after them: where the code turns a view
into a `const char*` with `.data()`, the callee reads from the view's first
character up to the first NUL of the buffer, which need not be at the view's
end (`string_view.data`).
-/

namespace ShaderH

/-! ## Part 1 : the code of the header -/

abbrev GLuint := Nat

abbrev GLint := Int

/-- A `float` is only ever passed through by the header, never computed with:
it is represented by its IEEE-754 bit pattern. -/
abbrev GLfloat := Nat

/-- The enumerants the header passes to the driver. -/
inductive GLenum where
  | GL_VERTEX_SHADER
  | GL_FRAGMENT_SHADER
  | GL_COMPILE_STATUS
  | GL_LINK_STATUS
  deriving DecidableEq, Repr

export GLenum (GL_VERTEX_SHADER GL_FRAGMENT_SHADER GL_COMPILE_STATUS GL_LINK_STATUS)

/-- The boolean constant `GL_FALSE`. -/
def GL_FALSE : Bool := false

/-- The characters of a buffer up to, not including, the first NUL: what a
callee that is handed a `const char*` reads. -/
def c_str (s : List Char) : List Char :=
  s.takeWhile (fun c => c != Char.ofNat 0)

/-- A `std::string_view` : the `size()` characters of the view, and the
characters its buffer holds after the last of them, before the buffer's
terminating NUL. Nothing in the type says that a NUL follows the view's last
character: `beyond` is empty exactly when one does. -/
structure string_view where
  chars : List Char
  beyond : List Char
  deriving DecidableEq, Repr

/-- The C string a callee reads at the pointer `data()` returns: from the
first character of the view up to the first NUL, inside the view or beyond its
end. -/
def string_view.data (sv : string_view) : List Char :=
  c_str (sv.chars ++ sv.beyond)

/-- The view of a `std::string` : all its characters; the string keeps a NUL
right after them. -/
def string_view.of_string (s : List Char) : string_view :=
  { chars := s, beyond := [] }

/-- The view made from a `const char*` : the characters up to the terminator,
which follows them. -/
def string_view.of_c_str (s : List Char) : string_view :=
  { chars := c_str s, beyond := [] }

/-- The type `glm::vec4` : four floats. -/
structure vec4 where
  x : GLfloat
  y : GLfloat
  z : GLfloat
  w : GLfloat
  deriving DecidableEq, Repr

/-- The type `glm::mat4` : four columns, stored column after column. -/
structure mat4 where
  c0 : vec4
  c1 : vec4
  c2 : vec4
  c3 : vec4
  deriving DecidableEq, Repr

/-- The floats `glm::value_ptr` points at, for a `vec4`. -/
def vec4.value_ptr (v : vec4) : List GLfloat := [v.x, v.y, v.z, v.w]

/-- The floats `glm::value_ptr` points at, for a `mat4` (column-major). -/
def mat4.value_ptr (m : mat4) : List GLfloat :=
  m.c0.value_ptr ++ m.c1.value_ptr ++ m.c2.value_ptr ++ m.c3.value_ptr

/-- The OpenGL entry points called by the header, over a driver state `σ`.
An entry point with an out-parameter (`GLint* params`, `GLchar* infoLog`)
takes the value the caller's variable holds before the call and returns the
value it holds after it. -/
structure Driver (σ : Type) where
  glCreateShader : GLenum → σ → GLuint × σ
  /-- The call `glShaderSource(shader, count, string, NULL)` with the `count` strings. -/
  glShaderSource : GLuint → List (List Char) → σ → σ
  glCompileShader : GLuint → σ → σ
  glGetShaderiv : GLuint → GLenum → GLint → σ → GLint × σ
  /-- The call `glGetShaderInfoLog(shader, bufSize, NULL, infoLog)`. -/
  glGetShaderInfoLog : GLuint → Nat → List Char → σ → List Char × σ
  glDeleteProgram : GLuint → σ → σ
  glCreateProgram : σ → GLuint × σ
  glAttachShader : GLuint → GLuint → σ → σ
  glLinkProgram : GLuint → σ → σ
  glGetProgramiv : GLuint → GLenum → GLint → σ → GLint × σ
  /-- The call `glGetProgramInfoLog(program, bufSize, NULL, infoLog)`. -/
  glGetProgramInfoLog : GLuint → Nat → List Char → σ → List Char × σ
  glDeleteShader : GLuint → σ → σ
  glUseProgram : GLuint → σ → σ
  glGetUniformLocation : GLuint → List Char → σ → GLint × σ
  /-- The call `glUniformMatrix4fv(location, count, transpose, value)`. -/
  glUniformMatrix4fv : GLint → Nat → Bool → List GLfloat → σ → σ
  glUniform4fv : GLint → Nat → List GLfloat → σ → σ
  glUniform1fv : GLint → Nat → List GLfloat → σ → σ

/-- One driver call as the header issued it: the arguments, and for a call
that hands something back (a name, a status, a log, a location) that value. -/
inductive GLCall where
  | glCreateShader (type : GLenum) (ret : GLuint)
  | glShaderSource (shader : GLuint) (string : List (List Char))
  | glCompileShader (shader : GLuint)
  | glGetShaderiv (shader : GLuint) (pname : GLenum) (params : GLint)
  | glGetShaderInfoLog (shader : GLuint) (bufSize : Nat) (infoLog : List Char)
  | glDeleteProgram (program : GLuint)
  | glCreateProgram (ret : GLuint)
  | glAttachShader (program : GLuint) (shader : GLuint)
  | glLinkProgram (program : GLuint)
  | glGetProgramiv (program : GLuint) (pname : GLenum) (params : GLint)
  | glGetProgramInfoLog (program : GLuint) (bufSize : Nat) (infoLog : List Char)
  | glDeleteShader (shader : GLuint)
  | glUseProgram (program : GLuint)
  | glGetUniformLocation (program : GLuint) (name : List Char) (ret : GLint)
  | glUniformMatrix4fv (location : GLint) (count : Nat) (transpose : Bool) (value : List GLfloat)
  | glUniform4fv (location : GLint) (count : Nat) (value : List GLfloat)
  | glUniform1fv (location : GLint) (count : Nat) (value : List GLfloat)
  deriving DecidableEq, Repr

/-- What the header acts on: the driver, the log of the driver calls issued so
far, and the text written to `std::cout` so far. -/
structure World (σ : Type) where
  drv : σ
  calls : List GLCall
  out : List Char

/-- A world in which nothing has been called or printed yet. -/
def World.fresh {σ : Type} (d : σ) : World σ := { drv := d, calls := [], out := [] }

/-- The insertion `std::cout << text`. -/
def cout {σ : Type} (text : List Char) (w : World σ) : World σ :=
  { w with out := w.out ++ text }

/-- The character `std::endl` writes. -/
def endl : List Char := ['\n']

namespace call

variable {σ : Type}

def glCreateShader (D : Driver σ) (type : GLenum) (w : World σ) : GLuint × World σ :=
  let r := D.glCreateShader type w.drv
  (r.1, { w with drv := r.2, calls := w.calls ++ [GLCall.glCreateShader type r.1] })

def glShaderSource (D : Driver σ) (shader : GLuint) (string : List (List Char))
    (w : World σ) : World σ :=
  { w with drv := D.glShaderSource shader string w.drv,
           calls := w.calls ++ [GLCall.glShaderSource shader string] }

def glCompileShader (D : Driver σ) (shader : GLuint) (w : World σ) : World σ :=
  { w with drv := D.glCompileShader shader w.drv,
           calls := w.calls ++ [GLCall.glCompileShader shader] }

def glGetShaderiv (D : Driver σ) (shader : GLuint) (pname : GLenum) (params : GLint)
    (w : World σ) : GLint × World σ :=
  let r := D.glGetShaderiv shader pname params w.drv
  (r.1, { w with drv := r.2, calls := w.calls ++ [GLCall.glGetShaderiv shader pname r.1] })

def glGetShaderInfoLog (D : Driver σ) (shader : GLuint) (bufSize : Nat) (infoLog : List Char)
    (w : World σ) : List Char × World σ :=
  let r := D.glGetShaderInfoLog shader bufSize infoLog w.drv
  (r.1, { w with drv := r.2,
                 calls := w.calls ++ [GLCall.glGetShaderInfoLog shader bufSize r.1] })

def glDeleteProgram (D : Driver σ) (program : GLuint) (w : World σ) : World σ :=
  { w with drv := D.glDeleteProgram program w.drv,
           calls := w.calls ++ [GLCall.glDeleteProgram program] }

def glCreateProgram (D : Driver σ) (w : World σ) : GLuint × World σ :=
  let r := D.glCreateProgram w.drv
  (r.1, { w with drv := r.2, calls := w.calls ++ [GLCall.glCreateProgram r.1] })

def glAttachShader (D : Driver σ) (program shader : GLuint) (w : World σ) : World σ :=
  { w with drv := D.glAttachShader program shader w.drv,
           calls := w.calls ++ [GLCall.glAttachShader program shader] }

def glLinkProgram (D : Driver σ) (program : GLuint) (w : World σ) : World σ :=
  { w with drv := D.glLinkProgram program w.drv,
           calls := w.calls ++ [GLCall.glLinkProgram program] }

def glGetProgramiv (D : Driver σ) (program : GLuint) (pname : GLenum) (params : GLint)
    (w : World σ) : GLint × World σ :=
  let r := D.glGetProgramiv program pname params w.drv
  (r.1, { w with drv := r.2, calls := w.calls ++ [GLCall.glGetProgramiv program pname r.1] })

def glGetProgramInfoLog (D : Driver σ) (program : GLuint) (bufSize : Nat)
    (infoLog : List Char) (w : World σ) : List Char × World σ :=
  let r := D.glGetProgramInfoLog program bufSize infoLog w.drv
  (r.1, { w with drv := r.2,
                 calls := w.calls ++ [GLCall.glGetProgramInfoLog program bufSize r.1] })

def glDeleteShader (D : Driver σ) (shader : GLuint) (w : World σ) : World σ :=
  { w with drv := D.glDeleteShader shader w.drv,
           calls := w.calls ++ [GLCall.glDeleteShader shader] }

def glUseProgram (D : Driver σ) (program : GLuint) (w : World σ) : World σ :=
  { w with drv := D.glUseProgram program w.drv,
           calls := w.calls ++ [GLCall.glUseProgram program] }

def glGetUniformLocation (D : Driver σ) (program : GLuint) (name : List Char)
    (w : World σ) : GLint × World σ :=
  let r := D.glGetUniformLocation program name w.drv
  (r.1, { w with drv := r.2,
                 calls := w.calls ++ [GLCall.glGetUniformLocation program name r.1] })

def glUniformMatrix4fv (D : Driver σ) (location : GLint) (count : Nat) (transpose : Bool)
    (value : List GLfloat) (w : World σ) : World σ :=
  { w with drv := D.glUniformMatrix4fv location count transpose value w.drv,
           calls := w.calls ++ [GLCall.glUniformMatrix4fv location count transpose value] }

def glUniform4fv (D : Driver σ) (location : GLint) (count : Nat) (value : List GLfloat)
    (w : World σ) : World σ :=
  { w with drv := D.glUniform4fv location count value w.drv,
           calls := w.calls ++ [GLCall.glUniform4fv location count value] }

def glUniform1fv (D : Driver σ) (location : GLint) (count : Nat) (value : List GLfloat)
    (w : World σ) : World σ :=
  { w with drv := D.glUniform1fv location count value w.drv,
           calls := w.calls ++ [GLCall.glUniform1fv location count value] }

end call

/-! ### `ReadAllText` -/

/-- The files the process can open for reading: a path is mapped to the text
an input stream delivers for it, or to `none` when it cannot be opened. -/
abbrev FileSystem := List Char → Option (List Char)

/-- A `std::ifstream` right after construction from a path: whether the open
succeeded, and the characters its buffer will deliver. -/
structure ifstream where
  is_open : Bool
  rdbuf : List Char

/-- The constructor `std::ifstream fs(filepath)`. A failed open leaves a stream
whose buffer delivers nothing. -/
def ifstream.mk_path (files : FileSystem) (filepath : List Char) : ifstream :=
  match files filepath with
  | some text => { is_open := true, rdbuf := text }
  | none => { is_open := false, rdbuf := [] }

/-- A `std::stringstream` : its contents and its `failbit`. -/
structure stringstream where
  str : List Char
  failbit : Bool

/-- The insertion `buffer << fs.rdbuf()` : every character the stream buffer
delivers is appended; when no character was inserted `failbit` is set. -/
def stringstream.insert_rdbuf (buffer : stringstream) (fs : ifstream) : stringstream :=
  if fs.rdbuf = [] then { buffer with failbit := true }
  else { buffer with str := buffer.str ++ fs.rdbuf }

/-- Embedding of `ReadAllText` (Shader.h lines 14-20). -/
def ReadAllText (files : FileSystem) (filepath : List Char) : List Char :=
  let fs := ifstream.mk_path files filepath
  let buffer : stringstream := { str := [], failbit := false }
  let buffer := buffer.insert_rdbuf fs
  buffer.str

/-! ### class `Shader` -/

/-- The class `Shader` : its one data member, `GLuint m_program = 0`. -/
structure Shader where
  m_program : GLuint := 0
  deriving DecidableEq, Repr

/-- The values the two uninitialised locals of `CreateFromSource`,
`GLint success` and `GLchar infoLog[512]`, hold on entry; `infoLog` is the
text printing the buffer would give. -/
structure Indeterminate where
  success : GLint
  infoLog : List Char

def VERTEX_TAG : List Char := "ERROR::SHADER::VERTEX::COMPILATION_FAILED\n".toList

def FRAGMENT_TAG : List Char := "ERROR::SHADER::FRAGMENT::COMPILATION_FAILED\n".toList

def PROGRAM_TAG : List Char := "ERROR::SHADER::PROGRAM::LINKING_FAILED\n".toList

/-- The locals of `CreateFromSource` as the three tests `if (!success)` saw
them, together with the instance and the world at the end of the call. -/
structure Frame (σ : Type) where
  vertex : GLuint
  fragment : GLuint
  /-- The value of `success` tested after the vertex compile-status query. -/
  vertexSuccess : GLint
  /-- The value of `infoLog` at the end of the vertex block. -/
  vertexLog : List Char
  fragmentSuccess : GLint
  fragmentLog : List Char
  linkSuccess : GLint
  linkLog : List Char
  self : Shader
  world : World σ

/-- Embedding of the body of `Shader::CreateFromSource` (Shader.h lines 34-81),
statement by statement. -/
def Shader.CreateFromSource.exec {σ : Type} (D : Driver σ) (u : Indeterminate)
    (vertexSource fragmentSource : string_view) (self : Shader) (w : World σ) : Frame σ :=
  let vShaderCode := vertexSource.data
  let fShaderCode := fragmentSource.data
  let success := u.success
  let infoLog := u.infoLog
  -- Vertex Shader
  let r := call.glCreateShader D GL_VERTEX_SHADER w
  let vertex := r.1
  let w := call.glShaderSource D vertex [vShaderCode] r.2
  let w := call.glCompileShader D vertex w
  let r := call.glGetShaderiv D vertex GL_COMPILE_STATUS success w
  let success1 := r.1
  let r :=
    if success1 = 0 then
      let l := call.glGetShaderInfoLog D vertex 512 infoLog r.2
      (l.1, cout (VERTEX_TAG ++ l.1 ++ endl) l.2)
    else (infoLog, r.2)
  let infoLog1 := r.1
  -- Fragment Shader
  let r := call.glCreateShader D GL_FRAGMENT_SHADER r.2
  let fragment := r.1
  let w := call.glShaderSource D fragment [fShaderCode] r.2
  let w := call.glCompileShader D fragment w
  let r := call.glGetShaderiv D fragment GL_COMPILE_STATUS success1 w
  let success2 := r.1
  let r :=
    if success2 = 0 then
      let l := call.glGetShaderInfoLog D fragment 512 infoLog1 r.2
      (l.1, cout (FRAGMENT_TAG ++ l.1 ++ endl) l.2)
    else (infoLog1, r.2)
  let infoLog2 := r.1
  -- Shader Program
  let w := if self.m_program ≠ 0 then call.glDeleteProgram D self.m_program r.2 else r.2
  let r := call.glCreateProgram D w
  let self : Shader := { m_program := r.1 }
  let w := call.glAttachShader D self.m_program vertex r.2
  let w := call.glAttachShader D self.m_program fragment w
  let w := call.glLinkProgram D self.m_program w
  let r := call.glGetProgramiv D self.m_program GL_LINK_STATUS success2 w
  let success3 := r.1
  let r :=
    if success3 = 0 then
      let l := call.glGetProgramInfoLog D self.m_program 512 infoLog2 r.2
      (l.1, cout (PROGRAM_TAG ++ l.1 ++ endl) l.2)
    else (infoLog2, r.2)
  let infoLog3 := r.1
  -- Delete the shaders
  let w := call.glDeleteShader D vertex r.2
  let w := call.glDeleteShader D fragment w
  { vertex := vertex, fragment := fragment,
    vertexSuccess := success1, vertexLog := infoLog1,
    fragmentSuccess := success2, fragmentLog := infoLog2,
    linkSuccess := success3, linkLog := infoLog3,
    self := self, world := w }

/-- The method `Shader::CreateFromSource` : the instance and the world after the call. -/
def Shader.CreateFromSource {σ : Type} (D : Driver σ) (u : Indeterminate)
    (vertexSource fragmentSource : string_view) (self : Shader) (w : World σ) :
    Shader × World σ :=
  let f := Shader.CreateFromSource.exec D u vertexSource fragmentSource self w
  (f.self, f.world)

/-- Embedding of `Shader::CreateFromFile` (Shader.h lines 27-32). The paths
reach `ReadAllText` as `vertexPath.data()` and `fragmentPath.data()`; the two
texts read are `std::string`s, handed to `CreateFromSource` as views. -/
def Shader.CreateFromFile {σ : Type} (D : Driver σ) (files : FileSystem) (u : Indeterminate)
    (vertexPath fragmentPath : string_view) (self : Shader) (w : World σ) :
    Shader × World σ :=
  let vertexSource := ReadAllText files vertexPath.data
  let fragmentSource := ReadAllText files fragmentPath.data
  Shader.CreateFromSource D u (string_view.of_string vertexSource)
    (string_view.of_string fragmentSource) self w

/-- Embedding of `Shader::Use` (Shader.h lines 84-87). -/
def Shader.Use {σ : Type} (D : Driver σ) (self : Shader) (w : World σ) : Shader × World σ :=
  (self, call.glUseProgram D self.m_program w)

/-- Embedding of `Shader::SetUniform(const char*, const glm::mat4&)` (lines 90-94). -/
def Shader.SetUniform_mat4 {σ : Type} (D : Driver σ) (uniformName : List Char)
    (uniformValue : mat4) (self : Shader) (w : World σ) : Shader × World σ :=
  let r := call.glGetUniformLocation D self.m_program uniformName w
  let loc := r.1
  (self, call.glUniformMatrix4fv D loc 1 GL_FALSE uniformValue.value_ptr r.2)

/-- Embedding of `Shader::SetUniform(const char*, const glm::vec4&)` (lines 97-101). -/
def Shader.SetUniform_vec4 {σ : Type} (D : Driver σ) (uniformName : List Char)
    (uniformValue : vec4) (self : Shader) (w : World σ) : Shader × World σ :=
  let r := call.glGetUniformLocation D self.m_program uniformName w
  let loc := r.1
  (self, call.glUniform4fv D loc 1 uniformValue.value_ptr r.2)

/-- Embedding of `Shader::SetUniform(const char*, const float)` (lines 104-108). -/
def Shader.SetUniform_float {σ : Type} (D : Driver σ) (uniformName : List Char)
    (uniformValue : GLfloat) (self : Shader) (w : World σ) : Shader × World σ :=
  let r := call.glGetUniformLocation D self.m_program uniformName w
  let loc := r.1
  (self, call.glUniform1fv D loc 1 [uniformValue] r.2)

/-- The vertex source in `CreateDefaultShader` (Shader.h lines 118-132). -/
def defaultVertexSource : List Char :=
  "\n\t\t#version 330 core\n\t\tlayout (location = 0) in vec3 position_in;\n\t\tlayout (location = 1) in vec3 normal_in;\n\n\t\tuniform mat4 modelViewProjectionMatrix;\n\n\t\tout vec3 normal;\n\n\t\tvoid main()\n\t\t\x7b\n\t\t\tnormal = normal_in;\n\t\t\tgl_Position = modelViewProjectionMatrix * vec4(position_in, 1.0f);\n\t\t\x7d\n\t".toList

/-- The fragment source in `CreateDefaultShader` (Shader.h lines 134-149). -/
def defaultFragmentSource : List Char :=
  "\n\t\t#version 330 core\n\t\tout vec4 fragmentColor;\n\n\t\tuniform vec4 color = vec4(0.5,0.5,0.5,1.0);\n\t\tuniform mat4 normalMatrix;\n\n\t\tin vec3 normal;\n\n\t\tvoid main()\n\t\t\x7b\n\t\t\tvec3 n = normalize((normalMatrix * vec4(normalize(normal),0)).xyz);\n\t\t\tfloat NdotL = abs(dot(n, vec3(0,0,1))); // abs for double-sided lighting\n\t\t\tfragmentColor = vec4( color.xyz * (0.2 + 0.8*NdotL), color.a);\n\t\t\x7d\n\t".toList

/-- Embedding of `CreateDefaultShader` (Shader.h lines 116-153): a
default-constructed instance on which `CreateFromSource` is called, with views
made from the two `const char*` literals, and which is then returned by value. -/
def CreateDefaultShader {σ : Type} (D : Driver σ) (u : Indeterminate) (w : World σ) :
    Shader × World σ :=
  let shader : Shader := {}
  Shader.CreateFromSource D u (string_view.of_c_str defaultVertexSource)
    (string_view.of_c_str defaultFragmentSource) shader w

/-! ## Part 2 : a reference driver

The driver is not part of the header.  `OpenGL.driver` is a state machine that
follows the OpenGL 3.3 core specification (its sections on shader objects,
program objects, uniform variables, and shader and program queries) for the
entry points above.  Three things are left to a `Toolchain`:
which object name the driver hands out next, what the GLSL compiler says about
a source text, and what the linker says about a set of shader objects.  The
error flag a rejected call raises is not part of the state: the header never
reads it, and a rejected call changes nothing else.  The uniforms of a program
are of the three types the header can set (`float`, `vec4`, `mat4`) and are
not arrays.
-/

namespace OpenGL

/-- The value stored in a uniform of one of the three types the header can set. -/
inductive UniformValue where
  | float (v : GLfloat)
  | vec4 (v : ShaderH.vec4)
  | mat4 (v : ShaderH.mat4)
  deriving DecidableEq, Repr

/-- Whether two uniform values are of the same GLSL type. -/
def UniformValue.sameType : UniformValue → UniformValue → Bool
  | .float _, .float _ => true
  | .vec4 _, .vec4 _ => true
  | .mat4 _, .mat4 _ => true
  | _, _ => false

/-- An active uniform of a linked program; its location is its position in the
list of the program's uniforms. -/
structure Uniform where
  name : List Char
  value : UniformValue
  deriving DecidableEq, Repr

/-- A shader object of the driver. -/
structure ShaderObject where
  type : GLenum
  source : List Char
  compileStatus : Bool
  infoLog : List Char
  /-- Flagged for deletion while still attached to a program. -/
  deleteStatus : Bool
  deriving DecidableEq, Repr

/-- A program object of the driver. -/
structure ProgramObject where
  attached : List GLuint
  linkStatus : Bool
  infoLog : List Char
  /-- Flagged for deletion while still the current program. -/
  deleteStatus : Bool
  uniforms : List Uniform
  deriving DecidableEq, Repr

/-- The driver state: the shader objects and the program objects by name, and
the name of the current program (0: none). -/
structure State where
  shaders : List (GLuint × ShaderObject)
  programs : List (GLuint × ProgramObject)
  current : GLuint
  deriving DecidableEq, Repr

/-- The object a name stands for. Zero is never the name of an object. -/
def find {α : Type} (n : GLuint) : List (GLuint × α) → Option α
  | [] => none
  | e :: m => if n ≠ 0 ∧ e.1 = n then some e.2 else find n m

/-- The table without the name `n`. -/
def remove {α : Type} (n : GLuint) (m : List (GLuint × α)) : List (GLuint × α) :=
  m.filter (fun e => decide (e.1 ≠ n))

/-- The table in which `n` stands for `a`. -/
def assign {α : Type} (n : GLuint) (a : α) (m : List (GLuint × α)) : List (GLuint × α) :=
  (n, a) :: remove n m

/-- What the linker reports. -/
structure LinkResult where
  ok : Bool
  infoLog : List Char
  uniforms : List Uniform

/-- The parts of the driver the specification leaves open. -/
structure Toolchain where
  /-- The name the driver would hand out for the next object. -/
  genName : State → GLuint
  /-- The compiler: status and log for a stage and its source. -/
  compile : GLenum → List Char → Bool × List Char
  /-- The linker, run on the shader objects attached to the program. -/
  link : List ShaderObject → LinkResult

/-- The name for a new object: the one the toolchain proposes when it is
non-zero and not in use, otherwise 0 (the object cannot be created). -/
def newName (T : Toolchain) (s : State) : GLuint :=
  let n := T.genName s
  if (find n s.shaders).isSome ∨ (find n s.programs).isSome then 0 else n

/-- A new shader object of the stage `type`, with an empty source, not
compiled, with an empty log. The answer is 0, and nothing is created, for an
enumerant that is no shader stage and when no name is available. -/
def glCreateShader (T : Toolchain) (type : GLenum) (s : State) : GLuint × State :=
  if type = GL_VERTEX_SHADER ∨ type = GL_FRAGMENT_SHADER then
    let n := newName T s
    if n = 0 then (0, s)
    else
      let o : ShaderObject :=
        { type := type, source := [], compileStatus := false, infoLog := [],
          deleteStatus := false }
      (n, { s with shaders := assign n o s.shaders })
  else (0, s)

/-- The source of the shader object becomes the concatenation of the strings.
The call is rejected when `shader` is not the name of a shader object. -/
def glShaderSource (shader : GLuint) (string : List (List Char)) (s : State) : State :=
  match find shader s.shaders with
  | some o =>
    let o : ShaderObject := { o with source := string.foldr (fun a b => a ++ b) [] }
    { s with shaders := assign shader o s.shaders }
  | none => s

/-- The shader object is compiled: its compile status and its log become what
the compiler says about its stage and source. -/
def glCompileShader (T : Toolchain) (shader : GLuint) (s : State) : State :=
  match find shader s.shaders with
  | some o =>
    let r := T.compile o.type o.source
    { s with shaders := assign shader { o with compileStatus := r.1, infoLog := r.2 } s.shaders }
  | none => s

/-- On an error (no such shader, a parameter name that is not a shader
parameter) nothing is written to `params`. -/
def glGetShaderiv (shader : GLuint) (pname : GLenum) (params : GLint) (s : State) :
    GLint × State :=
  match find shader s.shaders with
  | some o =>
    if pname = GL_COMPILE_STATUS then ((if o.compileStatus then 1 else 0), s) else (params, s)
  | none => (params, s)

/-- What a log query writes into a buffer of `bufSize` characters: at most
`bufSize - 1` characters of the log, then the terminator (shader and program
queries: the log is returned as a null-terminated string, and `bufSize` is
the most that is written, terminator included). -/
def writeLog (log : List Char) (bufSize : Nat) (infoLog : List Char) : List Char :=
  if bufSize = 0 then infoLog else (c_str log).take (bufSize - 1)

/-- The log of the shader object is written to the buffer; on an error (no
such shader) the buffer is left as it is. -/
def glGetShaderInfoLog (shader : GLuint) (bufSize : Nat) (infoLog : List Char) (s : State) :
    List Char × State :=
  match find shader s.shaders with
  | some o => (writeLog o.infoLog bufSize infoLog, s)
  | none => (infoLog, s)

/-- Whether some program object has the shader attached. -/
def isAttached (shader : GLuint) (programs : List (GLuint × ProgramObject)) : Bool :=
  programs.any (fun e => decide (shader ∈ e.2.attached))

/-- A shader object that is attached to a program object is flagged for
deletion, any other is deleted. Zero is ignored and the name of no shader
object is rejected. -/
def glDeleteShader (shader : GLuint) (s : State) : State :=
  match find shader s.shaders with
  | some o =>
    if isAttached shader s.programs then
      { s with shaders := assign shader { o with deleteStatus := true } s.shaders }
    else { s with shaders := remove shader s.shaders }
  | none => s

/-- Detaching a shader that is flagged for deletion and is attached to no
program any more deletes it. -/
def releaseShader (programs : List (GLuint × ProgramObject))
    (shaders : List (GLuint × ShaderObject)) (shader : GLuint) :
    List (GLuint × ShaderObject) :=
  match find shader shaders with
  | some o => if o.deleteStatus ∧ ¬ isAttached shader programs then remove shader shaders
              else shaders
  | none => shaders

/-- The program object is deleted: its shaders are detached. -/
def destroyProgram (program : GLuint) (P : ProgramObject) (s : State) : State :=
  let programs := remove program s.programs
  { s with programs := programs,
           shaders := P.attached.foldl (releaseShader programs) s.shaders }

/-- The current program is flagged for deletion, any other program object is
deleted. Zero is ignored and the name of no program object is rejected. -/
def glDeleteProgram (program : GLuint) (s : State) : State :=
  match find program s.programs with
  | some P =>
    if s.current = program then
      { s with programs := assign program { P with deleteStatus := true } s.programs }
    else destroyProgram program P s
  | none => s

/-- A new program object: nothing attached, not linked, empty log, no
uniforms. The answer is 0, and nothing is created, when no name is available. -/
def glCreateProgram (T : Toolchain) (s : State) : GLuint × State :=
  let n := newName T s
  if n = 0 then (0, s)
  else
    let P : ProgramObject :=
      { attached := [], linkStatus := false, infoLog := [], deleteStatus := false,
        uniforms := [] }
    (n, { s with programs := assign n P s.programs })

/-- The shader is added to the shaders attached to the program. The call is
rejected when `program` is no program object, `shader` is no shader object, or
the shader is attached to the program already. -/
def glAttachShader (program shader : GLuint) (s : State) : State :=
  match find program s.programs, find shader s.shaders with
  | some P, some _ =>
    if shader ∈ P.attached then s
    else
      let P : ProgramObject := { P with attached := P.attached ++ [shader] }
      { s with programs := assign program P s.programs }
  | _, _ => s

/-- The shader objects attached to a program. -/
def attachedObjects (P : ProgramObject) (s : State) : List ShaderObject :=
  P.attached.filterMap (fun n => find n s.shaders)

/-- The program object after a link. Linking fails when an attached shader
object is not compiled successfully (program objects: one of the listed
reasons for a link failure), and otherwise when the linker says so. A
successful link installs the active uniforms the linker reports. -/
def linkResult (T : Toolchain) (P : ProgramObject) (s : State) : ProgramObject :=
  let objs := attachedObjects P s
  let r := T.link objs
  let ok := objs.all (fun o => o.compileStatus) && r.ok
  { P with linkStatus := ok, infoLog := r.infoLog,
           uniforms := if ok then r.uniforms else P.uniforms }

/-- The program object is linked; rejected when `program` is the name of no
program object. -/
def glLinkProgram (T : Toolchain) (program : GLuint) (s : State) : State :=
  match find program s.programs with
  | some P => { s with programs := assign program (linkResult T P s) s.programs }
  | none => s

/-- On an error (no such program, a parameter name that is not a program
parameter) nothing is written to `params`. -/
def glGetProgramiv (program : GLuint) (pname : GLenum) (params : GLint) (s : State) :
    GLint × State :=
  match find program s.programs with
  | some P =>
    if pname = GL_LINK_STATUS then ((if P.linkStatus then 1 else 0), s) else (params, s)
  | none => (params, s)

/-- The log of the program object is written to the buffer; on an error (no
such program) the buffer is left as it is. -/
def glGetProgramInfoLog (program : GLuint) (bufSize : Nat) (infoLog : List Char) (s : State) :
    List Char × State :=
  match find program s.programs with
  | some P => (writeLog P.infoLog bufSize infoLog, s)
  | none => (infoLog, s)

/-- The current program becomes `program`; a program that stops being current
while flagged for deletion is deleted. -/
def makeCurrent (program : GLuint) (s : State) : State :=
  let old := s.current
  let s := { s with current := program }
  if old = program then s
  else
    match find old s.programs with
    | some P => if P.deleteStatus then destroyProgram old P s else s
    | none => s

/-- The call is rejected, and the current program stays, when `program` is
neither zero nor the name of a successfully linked program object (program
objects: `UseProgram` on a program that has not been linked successfully
generates `INVALID_OPERATION` and does not modify the current state). -/
def glUseProgram (program : GLuint) (s : State) : State :=
  if program = 0 then makeCurrent 0 s
  else
    match find program s.programs with
    | some P => if P.linkStatus then makeCurrent program s else s
    | none => s

/-- The position of the first uniform with the given name. -/
def locate (name : List Char) : List Uniform → Option Nat
  | [] => none
  | u :: us => if u.name = name then some 0 else (locate name us).map (fun i => i + 1)

/-- The location is -1 when `program` is not a successfully linked program
object or has no active uniform of that name. -/
def glGetUniformLocation (program : GLuint) (name : List Char) (s : State) : GLint × State :=
  match find program s.programs with
  | some P =>
    if P.linkStatus then
      match locate name P.uniforms with
      | some i => (Int.ofNat i, s)
      | none => (-1, s)
    else (-1, s)
  | none => (-1, s)

/-- The common part of the `glUniform*` commands: the value goes to the
uniform at `location` of the current program. Location -1 is silently
ignored; the call is rejected when there is no current program, when the
location is not one of the program, or when the uniform is of another type
(uniform variables: a `Uniform*` command whose type or size does not match
the uniform declared in the shader generates `INVALID_OPERATION`). -/
def storeUniform (location : GLint) (v : UniformValue) (s : State) : State :=
  match find s.current s.programs with
  | some P =>
    if location < 0 then s
    else
      match P.uniforms[location.toNat]? with
      | some u =>
        if u.value.sameType v then
          let P : ProgramObject :=
            { P with uniforms := P.uniforms.set location.toNat { u with value := v } }
          { s with programs := assign s.current P s.programs }
        else s
      | none => s
  | none => s

/-- The four floats at the start of the memory a pointer designates. -/
def readVec4 : List GLfloat → Option ShaderH.vec4
  | x :: y :: z :: w :: _ => some { x := x, y := y, z := z, w := w }
  | _ => none

/-- The sixteen floats at the start of the memory a pointer designates, as the
four columns of a matrix. -/
def readMat4 (value : List GLfloat) : Option ShaderH.mat4 :=
  match readVec4 value, readVec4 (value.drop 4), readVec4 (value.drop 8),
        readVec4 (value.drop 12) with
  | some a, some b, some c, some d => some { c0 := a, c1 := b, c2 := c, c3 := d }
  | _, _, _, _ => none

/-- The matrix with rows and columns exchanged. -/
def transposeMat4 (m : ShaderH.mat4) : ShaderH.mat4 :=
  { c0 := { x := m.c0.x, y := m.c1.x, z := m.c2.x, w := m.c3.x },
    c1 := { x := m.c0.y, y := m.c1.y, z := m.c2.y, w := m.c3.y },
    c2 := { x := m.c0.z, y := m.c1.z, z := m.c2.z, w := m.c3.z },
    c3 := { x := m.c0.w, y := m.c1.w, z := m.c2.w, w := m.c3.w } }

/-- The matrix read at `value`, transposed when `transpose` is set, goes to the
uniform at `location`; only `count = 1` is modelled (the header passes no
other). -/
def glUniformMatrix4fv (location : GLint) (count : Nat) (transpose : Bool)
    (value : List GLfloat) (s : State) : State :=
  if count = 1 then
    match readMat4 value with
    | some m => storeUniform location (.mat4 (if transpose then transposeMat4 m else m)) s
    | none => s
  else s

/-- The vector read at `value` goes to the uniform at `location`; only
`count = 1` is modelled. -/
def glUniform4fv (location : GLint) (count : Nat) (value : List GLfloat) (s : State) : State :=
  if count = 1 then
    match readVec4 value with
    | some v => storeUniform location (.vec4 v) s
    | none => s
  else s

/-- The float read at `value` goes to the uniform at `location`; only
`count = 1` is modelled. -/
def glUniform1fv (location : GLint) (count : Nat) (value : List GLfloat) (s : State) : State :=
  if count = 1 then
    match value with
    | x :: _ => storeUniform location (.float x) s
    | [] => s
  else s

/-- The reference driver for a given toolchain. -/
def driver (T : Toolchain) : Driver State where
  glCreateShader := glCreateShader T
  glShaderSource := glShaderSource
  glCompileShader := glCompileShader T
  glGetShaderiv := glGetShaderiv
  glGetShaderInfoLog := glGetShaderInfoLog
  glDeleteProgram := glDeleteProgram
  glCreateProgram := glCreateProgram T
  glAttachShader := glAttachShader
  glLinkProgram := glLinkProgram T
  glGetProgramiv := glGetProgramiv
  glGetProgramInfoLog := glGetProgramInfoLog
  glDeleteShader := glDeleteShader
  glUseProgram := glUseProgram
  glGetUniformLocation := glGetUniformLocation
  glUniformMatrix4fv := glUniformMatrix4fv
  glUniform4fv := glUniform4fv
  glUniform1fv := glUniform1fv

/-- Whether `program` is the name of a program object of the driver (what
`glIsProgram` answers): a live driver-side program. -/
def isProgram (s : State) (program : GLuint) : Bool :=
  (find program s.programs).isSome

/-- Whether the driver reports link status success for `program`: the answer
of the link-status query into a variable that held `GL_FALSE`. -/
def reportsLinked (s : State) (program : GLuint) : Bool :=
  decide ((glGetProgramiv program GL_LINK_STATUS 0 s).1 ≠ 0)

/-- The driver state before any object exists. -/
def State.empty : State := { shaders := [], programs := [], current := 0 }

end OpenGL

/-! ## Part 3 : observations used in the statements -/

/-- The text one step of `CreateFromSource` prints: the tag, the log and the
end of line when the tested status is zero, nothing otherwise. -/
def message (tag : List Char) (success : GLint) (infoLog : List Char) : List Char :=
  if success = 0 then tag ++ infoLog ++ endl else []

/-- The driver calls of the vertex block, in terms of the locals. -/
def vertexCalls {σ : Type} (f : Frame σ) (vertexSource : string_view) : List GLCall :=
  [GLCall.glCreateShader GL_VERTEX_SHADER f.vertex,
   GLCall.glShaderSource f.vertex [vertexSource.data],
   GLCall.glCompileShader f.vertex,
   GLCall.glGetShaderiv f.vertex GL_COMPILE_STATUS f.vertexSuccess]
  ++ (if f.vertexSuccess = 0 then [GLCall.glGetShaderInfoLog f.vertex 512 f.vertexLog] else [])

/-- The driver calls of the fragment block, in terms of the locals. -/
def fragmentCalls {σ : Type} (f : Frame σ) (fragmentSource : string_view) : List GLCall :=
  [GLCall.glCreateShader GL_FRAGMENT_SHADER f.fragment,
   GLCall.glShaderSource f.fragment [fragmentSource.data],
   GLCall.glCompileShader f.fragment,
   GLCall.glGetShaderiv f.fragment GL_COMPILE_STATUS f.fragmentSuccess]
  ++ (if f.fragmentSuccess = 0 then [GLCall.glGetShaderInfoLog f.fragment 512 f.fragmentLog]
      else [])

/-- The release of the handle held on entry: one call when it is non-zero. -/
def releaseCalls (held : GLuint) : List GLCall :=
  if held ≠ 0 then [GLCall.glDeleteProgram held] else []

/-- The driver calls from `glCreateProgram` to the end, in terms of the locals. -/
def programCalls {σ : Type} (f : Frame σ) : List GLCall :=
  [GLCall.glCreateProgram f.self.m_program,
   GLCall.glAttachShader f.self.m_program f.vertex,
   GLCall.glAttachShader f.self.m_program f.fragment,
   GLCall.glLinkProgram f.self.m_program,
   GLCall.glGetProgramiv f.self.m_program GL_LINK_STATUS f.linkSuccess]
  ++ (if f.linkSuccess = 0 then [GLCall.glGetProgramInfoLog f.self.m_program 512 f.linkLog]
      else [])
  ++ [GLCall.glDeleteShader f.vertex, GLCall.glDeleteShader f.fragment]

/-- One compile block of `CreateFromSource` (the vertex block and the fragment
block are the same statements on different arguments): the shader name, the
tested status, the log buffer and the world after the block. -/
def compileBlock {σ : Type} (D : Driver σ) (type : GLenum) (tag code : List Char)
    (success : GLint) (infoLog : List Char) (w : World σ) :
    GLuint × GLint × List Char × World σ :=
  let r := call.glCreateShader D type w
  let shader := r.1
  let w := call.glShaderSource D shader [code] r.2
  let w := call.glCompileShader D shader w
  let r := call.glGetShaderiv D shader GL_COMPILE_STATUS success w
  let success1 := r.1
  let r :=
    if success1 = 0 then
      let l := call.glGetShaderInfoLog D shader 512 infoLog r.2
      (l.1, cout (tag ++ l.1 ++ endl) l.2)
    else (infoLog, r.2)
  (shader, success1, r.1, r.2)

/-- The program block of `CreateFromSource`, from the release of the held
handle to the deletion of the two shaders. -/
def programBlock {σ : Type} (D : Driver σ) (held vertex fragment : GLuint)
    (success : GLint) (infoLog : List Char) (w : World σ) :
    GLuint × GLint × List Char × World σ :=
  let w := if held ≠ 0 then call.glDeleteProgram D held w else w
  let r := call.glCreateProgram D w
  let program := r.1
  let w := call.glAttachShader D program vertex r.2
  let w := call.glAttachShader D program fragment w
  let w := call.glLinkProgram D program w
  let r := call.glGetProgramiv D program GL_LINK_STATUS success w
  let success3 := r.1
  let r :=
    if success3 = 0 then
      let l := call.glGetProgramInfoLog D program 512 infoLog r.2
      (l.1, cout (PROGRAM_TAG ++ l.1 ++ endl) l.2)
    else (infoLog, r.2)
  let w := call.glDeleteShader D vertex r.2
  let w := call.glDeleteShader D fragment w
  (program, success3, r.1, w)

namespace OpenGL

/-- The driver side of one compile block: create, set the source, compile. -/
def shaderStage (T : Toolchain) (type : GLenum) (code : List Char) (s : State) :
    GLuint × State :=
  let r := glCreateShader T type s
  (r.1, glCompileShader T r.1 (glShaderSource r.1 [code] r.2))

/-- The driver side of the program block up to the link. -/
def programStage (T : Toolchain) (held vertex fragment : GLuint) (s : State) :
    GLuint × State :=
  let s := if held ≠ 0 then glDeleteProgram held s else s
  let r := glCreateProgram T s
  (r.1, glLinkProgram T r.1 (glAttachShader r.1 fragment (glAttachShader r.1 vertex r.2)))

end OpenGL

/-- The handles the driver issued to the `glCreateProgram` calls of a call log. -/
def programsCreated (calls : List GLCall) : List GLuint :=
  calls.filterMap (fun c => match c with
    | GLCall.glCreateProgram p => some p
    | _ => none)

/-- The handle an instance holds, as a list: empty for the zero handle. -/
def Shader.held (self : Shader) : List GLuint :=
  if self.m_program = 0 then [] else [self.m_program]

/-- The text the spec has `CreateFromFile` read for a path: the full contents
of the file the path names, and the empty string when that file cannot be
opened. -/
def contentsOrEmpty (files : FileSystem) (path : List Char) : List Char :=
  match files path with
  | some text => text
  | none => []

/-- The reading of `CreateFromFile` in the spec: `CreateFromSource` on the
contents of the two files that the characters of the two paths name. -/
def CreateFromFile_spec {σ : Type} (D : Driver σ) (files : FileSystem) (u : Indeterminate)
    (vertexPath fragmentPath : string_view) (self : Shader) (w : World σ) : Shader × World σ :=
  Shader.CreateFromSource D u (string_view.of_string (contentsOrEmpty files vertexPath.chars))
    (string_view.of_string (contentsOrEmpty files fragmentPath.chars)) self w

/-! ### sample drivers and inputs -/

namespace OpenGL

/-- The largest object name in use. -/
def maxName (s : State) : GLuint :=
  (s.shaders.map Prod.fst ++ s.programs.map Prod.fst).foldr max 0

/-- The bit pattern of `1.0f`. -/
def one : GLfloat := 0x3F800000

/-- The bit pattern of `0.5f`. -/
def half : GLfloat := 0x3F000000

/-- The matrix `glm::mat4(1.0f)`. -/
def identity : ShaderH.mat4 :=
  { c0 := { x := one, y := 0, z := 0, w := 0 },
    c1 := { x := 0, y := one, z := 0, w := 0 },
    c2 := { x := 0, y := 0, z := one, w := 0 },
    c3 := { x := 0, y := 0, z := 0, w := one } }

/-- The matrix of zeros. -/
def zeroMat4 : ShaderH.mat4 :=
  { c0 := { x := 0, y := 0, z := 0, w := 0 },
    c1 := { x := 0, y := 0, z := 0, w := 0 },
    c2 := { x := 0, y := 0, z := 0, w := 0 },
    c3 := { x := 0, y := 0, z := 0, w := 0 } }

/-- The active uniforms of the default shader pair, with their initial values. -/
def defaultUniforms : List Uniform :=
  [{ name := "modelViewProjectionMatrix".toList, value := UniformValue.mat4 zeroMat4 },
   { name := "color".toList,
     value := UniformValue.vec4 { x := half, y := half, z := half, w := one } },
   { name := "normalMatrix".toList, value := UniformValue.mat4 zeroMat4 }]

/-- A sample toolchain. Names are handed out in increasing order; the compiler
rejects exactly the empty source; the linker accepts what compiled and reports
the uniforms of the default shader pair. -/
def sampleToolchain : Toolchain where
  genName := fun s => maxName s + 1
  compile := fun _ code => (decide (code ≠ []), if code = [] then "empty source".toList else [])
  link := fun _ => { ok := true, infoLog := [], uniforms := defaultUniforms }

/-- A toolchain whose linker always fails, with a log of 600 characters. -/
def verboseToolchain : Toolchain where
  genName := fun s => maxName s + 1
  compile := fun _ _ => (true, [])
  link := fun _ => { ok := false, infoLog := List.replicate 600 'x', uniforms := [] }

/-- A driver state with one linked program, named 1 and current, that has a
matrix, a vector and a scalar uniform. -/
def sampleState : State :=
  { shaders := [],
    programs := [(1, { attached := [], linkStatus := true, infoLog := [], deleteStatus := false,
                       uniforms := [{ name := "m".toList, value := UniformValue.mat4 zeroMat4 },
                                    { name := "v".toList,
                                      value := UniformValue.vec4 { x := 0, y := 0, z := 0, w := 0 } },
                                    { name := "x".toList, value := UniformValue.float 0 }] })],
    current := 1 }

end OpenGL

/-- The view `CreateDefaultShader` makes from its vertex literal. -/
def defaultVertexView : string_view := string_view.of_c_str defaultVertexSource

/-- The view `CreateDefaultShader` makes from its fragment literal. -/
def defaultFragmentView : string_view := string_view.of_c_str defaultFragmentSource

/-- The view of the empty string literal. -/
def emptyView : string_view := string_view.of_c_str []

/-- Sample entry values of the uninitialised locals. -/
def sampleLocals : Indeterminate := { success := 0, infoLog := [] }

/-- A file system without any readable file. -/
def noFiles : FileSystem := fun _ => none

/-- The value a status query writes for a status. -/
def statusOf (ok : Bool) : GLint := if ok then 1 else 0

/-- The text one step prints for a driver status and a driver log: nothing on
success, otherwise the tag, the log as the 512-character buffer holds it after
the log query, and the end of line. -/
def diagnostic (tag : List Char) (ok : Bool) (log : List Char) : List Char :=
  if ok then [] else tag ++ (c_str log).take 511 ++ endl

namespace OpenGL

/-- The shader object a compile block leaves in the driver for a source. -/
def compiledObject (T : Toolchain) (type : GLenum) (code : List Char) : ShaderObject :=
  { type := type, source := code, compileStatus := (T.compile type code).1,
    infoLog := (T.compile type code).2, deleteStatus := false }

/-- What the linker says about the pair of shader objects compiled from a
vertex and a fragment source. -/
def linkOf (T : Toolchain) (vcode fcode : List Char) : LinkResult :=
  T.link [compiledObject T GL_VERTEX_SHADER vcode, compiledObject T GL_FRAGMENT_SHADER fcode]

/-- The link status of a program of the two shader objects compiled from a
vertex and a fragment source: both compiled and the linker accepts the pair. -/
def linksOk (T : Toolchain) (vcode fcode : List Char) : Bool :=
  (T.compile GL_VERTEX_SHADER vcode).1 && (T.compile GL_FRAGMENT_SHADER fcode).1
    && (linkOf T vcode fcode).ok

/-- The program object `CreateFromSource` leaves behind its handle when the
driver issued the two shader objects `vertex` and `fragment`. -/
def linkedObject (T : Toolchain) (vertex fragment : GLuint) (vcode fcode : List Char) :
    ProgramObject :=
  { attached := [vertex, fragment], linkStatus := linksOk T vcode fcode,
    infoLog := (linkOf T vcode fcode).infoLog, deleteStatus := false,
    uniforms := if linksOk T vcode fcode then (linkOf T vcode fcode).uniforms else [] }

/-- The names the driver answers to the three create calls of one
`CreateFromSource` call. -/
structure Issued where
  vertex : GLuint
  fragment : GLuint
  program : GLuint
  deriving DecidableEq, Repr

/-- The names the reference driver issues, from the state `s`, to the three
create calls of a `CreateFromSource` call with the sources `vcode` and `fcode`
on an instance holding `held`, in the order of the source: the vertex shader is
created, given its source and compiled, then the fragment shader, then `held`
is released when it is non-zero and the program is created. -/
def issued (T : Toolchain) (vcode fcode : List Char) (held : GLuint) (s : State) : Issued :=
  let V := shaderStage T GL_VERTEX_SHADER vcode s
  let F := shaderStage T GL_FRAGMENT_SHADER fcode V.2
  let P := programStage T held V.1 F.1 F.2
  { vertex := V.1, fragment := F.1, program := P.1 }

/-- The driver created all three objects. -/
def Issued.all (i : Issued) : Prop := i.vertex ≠ 0 ∧ i.fragment ≠ 0 ∧ i.program ≠ 0

/-- Whether the driver created all three objects can be computed. -/
instance Issued.decideAll (i : Issued) : Decidable i.all :=
  inferInstanceAs (Decidable (i.vertex ≠ 0 ∧ i.fragment ≠ 0 ∧ i.program ≠ 0))

/-- A toolchain whose driver has one object name to give: a create call is
answered with 1 while no object exists and with 0 otherwise. The compiler
rejects every vertex source and accepts every fragment source. -/
def scarceToolchain : Toolchain where
  genName := fun s => if s.shaders = [] ∧ s.programs = [] then 1 else 0
  compile := fun type _ =>
    if type = GL_VERTEX_SHADER then (false, "vertex log".toList) else (true, [])
  link := fun _ => { ok := true, infoLog := [], uniforms := [] }

end OpenGL

/-- A view of the first six characters of the buffer `p.vert.bak`. -/
def prefixVertexPath : string_view := { chars := "p.vert".toList, beyond := ".bak".toList }

/-- A view of the first six characters of the buffer `p.frag.bak`. -/
def prefixFragmentPath : string_view := { chars := "p.frag".toList, beyond := ".bak".toList }

/-- A file system with two readable files, `p.vert.bak` and `p.frag.bak`. -/
def backupFiles : FileSystem := fun path =>
  if path = "p.vert.bak".toList then some "void main() \x7b\x7d".toList
  else if path = "p.frag.bak".toList then some "void main() \x7b\x7d".toList
  else none

/-! ## Part 4 : lemmas -/

theorem exec_blocks {σ : Type} (D : Driver σ) (u : Indeterminate) (vs fs : string_view)
    (self : Shader) (w : World σ) :
    Shader.CreateFromSource.exec D u vs fs self w =
      (let b1 := compileBlock D GL_VERTEX_SHADER VERTEX_TAG vs.data u.success u.infoLog w
       let b2 := compileBlock D GL_FRAGMENT_SHADER FRAGMENT_TAG fs.data b1.2.1 b1.2.2.1
                  b1.2.2.2
       let b3 := programBlock D self.m_program b1.1 b2.1 b2.2.1 b2.2.2.1 b2.2.2.2
       { vertex := b1.1, fragment := b2.1,
         vertexSuccess := b1.2.1, vertexLog := b1.2.2.1,
         fragmentSuccess := b2.2.1, fragmentLog := b2.2.2.1,
         linkSuccess := b3.2.1, linkLog := b3.2.2.1,
         self := { m_program := b3.1 }, world := b3.2.2.2 }) := rfl

namespace OpenGL

theorem find_zero {α : Type} (m : List (GLuint × α)) : find 0 m = none := by
  induction m with
  | nil => rfl
  | cons e m ih => simp [find, ih]

theorem find_remove {α : Type} (k n : GLuint) (m : List (GLuint × α)) :
    find k (remove n m) = if k = n then none else find k m := by
  induction m with
  | nil => simp [remove, find]
  | cons e m ih =>
    obtain ⟨a, b⟩ := e
    simp only [remove] at ih
    by_cases hk : k = 0
    · subst hk; simp [find_zero]
    by_cases he : a = n
    · subst he
      by_cases hkn : k = a
      · subst hkn; simpa [remove, List.filter_cons] using ih
      · have h2 : ¬ a = k := fun h => hkn h.symm
        simpa [remove, List.filter_cons, find, hkn, h2] using ih
    · by_cases hkn : k = n
      · subst hkn
        simpa [remove, List.filter_cons, find, he] using ih
      · simp [remove, List.filter_cons, he, hkn, find] at ih ⊢
        simp [ih]

theorem find_assign {α : Type} (k n : GLuint) (a : α) (m : List (GLuint × α)) :
    find k (assign n a m) = if k ≠ 0 ∧ n = k then some a else find k m := by
  by_cases hk : k = 0
  · subst hk; simp [find_zero]
  · by_cases hn : n = k
    · simp [assign, find, hk, hn]
    · have : ¬ k = n := fun h => hn h.symm
      simp [assign, find, hk, hn, find_remove, this]

theorem newName_spec (T : Toolchain) (s : State) (h : newName T s ≠ 0) :
    find (newName T s) s.shaders = none ∧ find (newName T s) s.programs = none := by
  unfold newName at h ⊢
  simp only at h ⊢
  split_ifs at h ⊢ with hc
  · exact absurd rfl h
  · simp only [not_or, Option.not_isSome_iff_eq_none] at hc
    exact hc

/-! ### the compile block -/

theorem shaderStage_programs (T : Toolchain) (type : GLenum) (code : List Char) (s : State) :
    (shaderStage T type code s).2.programs = s.programs
      ∧ (shaderStage T type code s).2.current = s.current := by
  simp only [shaderStage, glCreateShader, glShaderSource, glCompileShader]
  constructor <;> (repeat' split) <;> simp_all

theorem shaderStage_fresh (T : Toolchain) (type : GLenum) (code : List Char) (s : State)
    (h : (shaderStage T type code s).1 ≠ 0) :
    find (shaderStage T type code s).1 s.shaders = none
      ∧ find (shaderStage T type code s).1 s.programs = none := by
  simp only [shaderStage, glCreateShader] at h ⊢
  split_ifs at h ⊢ with h1 h2
  · exact absurd rfl h
  · exact newName_spec T s h2
  · exact absurd rfl h

theorem shaderStage_new (T : Toolchain) (type : GLenum) (code : List Char) (s : State)
    (h : (shaderStage T type code s).1 ≠ 0) :
    find (shaderStage T type code s).1 (shaderStage T type code s).2.shaders
      = some { type := type, source := code, compileStatus := (T.compile type code).1,
               infoLog := (T.compile type code).2, deleteStatus := false } := by
  simp only [shaderStage, glCreateShader] at h ⊢
  split_ifs at h ⊢ with h1 h2
  · exact absurd rfl h
  · simp [glShaderSource, glCompileShader, find_assign, h2]
  · exact absurd rfl h

theorem shaderStage_other (T : Toolchain) (type : GLenum) (code : List Char) (s : State)
    (k : GLuint) (h : k ≠ (shaderStage T type code s).1) :
    find k (shaderStage T type code s).2.shaders = find k s.shaders := by
  simp only [shaderStage, glCreateShader] at h ⊢
  split_ifs at h ⊢ with h1 h2
  · simp [glShaderSource, glCompileShader, find_zero]
  · have : ¬ newName T s = k := fun e => h e.symm
    simp [glShaderSource, glCompileShader, find_assign, h2, this]
  · simp [glShaderSource, glCompileShader, find_zero]

theorem find_ne_zero {α : Type} {k : GLuint} {m : List (GLuint × α)} {a : α}
    (h : find k m = some a) : k ≠ 0 := by
  intro hk; subst hk; simp [find_zero] at h

/-! ### deleting a program -/

theorem releaseShader_keeps (programs : List (GLuint × ProgramObject))
    (shaders : List (GLuint × ShaderObject)) (x k : GLuint) (o : ShaderObject)
    (h : find k shaders = some o) (hd : o.deleteStatus = false) :
    find k (releaseShader programs shaders x) = some o := by
  unfold releaseShader
  split
  · rename_i o2 hx
    split_ifs with hc
    · have : k ≠ x := by
        intro e; subst e; rw [h] at hx; cases hx; simp [hd] at hc
      simp [find_remove, this, h]
    · exact h
  · exact h

theorem foldl_releaseShader_keeps (programs : List (GLuint × ProgramObject))
    (l : List GLuint) (shaders : List (GLuint × ShaderObject)) (k : GLuint) (o : ShaderObject)
    (h : find k shaders = some o) (hd : o.deleteStatus = false) :
    find k (l.foldl (releaseShader programs) shaders) = some o := by
  induction l generalizing shaders with
  | nil => exact h
  | cons x l ih => exact ih _ (releaseShader_keeps programs shaders x k o h hd)

theorem glDeleteProgram_shaders (p : GLuint) (s : State) (k : GLuint) (o : ShaderObject)
    (h : find k s.shaders = some o) (hd : o.deleteStatus = false) :
    find k (glDeleteProgram p s).shaders = some o := by
  unfold glDeleteProgram
  split
  · split_ifs
    · exact h
    · exact foldl_releaseShader_keeps _ _ _ k o h hd
  · exact h

theorem glDeleteProgram_domain (p : GLuint) (s : State) (q : GLuint)
    (h : (find q (glDeleteProgram p s).programs).isSome) : (find q s.programs).isSome := by
  unfold glDeleteProgram at h
  split at h
  · rename_i P hP
    split_ifs at h
    · simp only [find_assign] at h
      split_ifs at h with hc
      · rw [← hc.2, hP]; rfl
      · exact h
    · simp only [destroyProgram, find_remove] at h
      split_ifs at h
      · simp at h
      · exact h
  · exact h

/-! ### attaching and linking -/

theorem glAttachShader_shaders (p x : GLuint) (s : State) :
    (glAttachShader p x s).shaders = s.shaders ∧ (glAttachShader p x s).current = s.current := by
  unfold glAttachShader
  split
  · split_ifs <;> exact ⟨rfl, rfl⟩
  · exact ⟨rfl, rfl⟩

theorem glAttachShader_self (p x : GLuint) (s : State) (P : ProgramObject)
    (h : find p s.programs = some P) :
    ∃ P', find p (glAttachShader p x s).programs = some P'
      ∧ (∀ y, y ∈ P.attached → y ∈ P'.attached)
      ∧ ((find x s.shaders).isSome → x ∈ P'.attached) := by
  have hp := find_ne_zero h
  unfold glAttachShader
  split
  · rename_i P2 o hP ho
    rw [h] at hP; cases hP
    split_ifs with hm
    · exact ⟨P, h, fun y hy => hy, fun _ => hm⟩
    · refine ⟨{ P with attached := P.attached ++ [x] }, ?_, ?_, ?_⟩
      · simp [find_assign, hp]
      · intro y hy; simp [hy]
      · intro _; simp
  · rename_i hno
    refine ⟨P, h, fun y hy => hy, ?_⟩
    intro hx
    obtain ⟨o, ho⟩ := Option.isSome_iff_exists.mp hx
    exact absurd ho (hno P o h)

theorem glAttachShader_domain (p x : GLuint) (s : State) (q : GLuint) :
    (find q (glAttachShader p x s).programs).isSome = (find q s.programs).isSome := by
  unfold glAttachShader
  split
  · rename_i P o hP ho
    split_ifs
    · rfl
    · by_cases hc : q ≠ 0 ∧ p = q
      · obtain ⟨hq, rfl⟩ := hc
        simp [find_assign, hq, hP]
      · simp only [find_assign, if_neg hc]
  · rfl

theorem glLinkProgram_domain (T : Toolchain) (p : GLuint) (s : State) (q : GLuint) :
    (find q (glLinkProgram T p s).programs).isSome = (find q s.programs).isSome := by
  unfold glLinkProgram
  split
  · rename_i P hP
    by_cases hc : q ≠ 0 ∧ p = q
    · obtain ⟨hq, rfl⟩ := hc
      simp [find_assign, hq, hP]
    · simp only [find_assign, if_neg hc]
  · rfl

theorem glLinkProgram_self (T : Toolchain) (p : GLuint) (s : State) (P : ProgramObject)
    (h : find p s.programs = some P) :
    find p (glLinkProgram T p s).programs = some (linkResult T P s) := by
  have hp := find_ne_zero h
  unfold glLinkProgram
  rw [h]
  simp [find_assign, hp]

theorem linkResult_failed (T : Toolchain) (P : ProgramObject) (s : State) (x : GLuint)
    (o : ShaderObject) (hx : x ∈ P.attached) (ho : find x s.shaders = some o)
    (hc : o.compileStatus = false) : (linkResult T P s).linkStatus = false := by
  have : o ∈ attachedObjects P s := by
    unfold attachedObjects
    exact List.mem_filterMap.mpr ⟨x, hx, ho⟩
  have hall : (attachedObjects P s).all (fun o => o.compileStatus) = false := by
    rw [List.all_eq_false]
    exact ⟨o, this, by simp [hc]⟩
  simp [linkResult, hall]

theorem glCreateProgram_shaders (T : Toolchain) (s : State) :
    (glCreateProgram T s).2.shaders = s.shaders ∧ (glCreateProgram T s).2.current = s.current := by
  unfold glCreateProgram
  simp only
  split_ifs <;> exact ⟨rfl, rfl⟩

theorem glCreateProgram_self (T : Toolchain) (s : State) (h : (glCreateProgram T s).1 ≠ 0) :
    find (glCreateProgram T s).1 (glCreateProgram T s).2.programs
      = some { attached := [], linkStatus := false, infoLog := [], deleteStatus := false,
               uniforms := [] } := by
  unfold glCreateProgram at h ⊢
  simp only at h ⊢
  split_ifs at h ⊢ with h1
  · exact absurd rfl h
  · simp [find_assign, h1]

theorem glCreateProgram_domain (T : Toolchain) (s : State) (q : GLuint)
    (h : (find q (glCreateProgram T s).2.programs).isSome) :
    q = (glCreateProgram T s).1 ∨ (find q s.programs).isSome := by
  unfold glCreateProgram at h ⊢
  simp only at h ⊢
  split_ifs at h ⊢ with h1
  · exact Or.inr h
  · simp only [find_assign] at h
    by_cases hc : q ≠ 0 ∧ newName T s = q
    · exact Or.inl hc.2.symm
    · rw [if_neg hc] at h; exact Or.inr h

/-! ### the program block -/

theorem programStage_domain (T : Toolchain) (held v f : GLuint) (s : State) (q : GLuint)
    (h : (find q (programStage T held v f s).2.programs).isSome) :
    q = (programStage T held v f s).1 ∨ (find q s.programs).isSome := by
  simp only [programStage] at h ⊢
  rw [glLinkProgram_domain, glAttachShader_domain, glAttachShader_domain] at h
  rcases glCreateProgram_domain _ _ _ h with h1 | h1
  · exact Or.inl h1
  · right
    split_ifs at h1
    · exact glDeleteProgram_domain _ _ _ h1
    · exact h1

theorem programStage_self (T : Toolchain) (held v f : GLuint) (s : State)
    (h : (programStage T held v f s).1 ≠ 0) :
    ∃ P, find (programStage T held v f s).1 (programStage T held v f s).2.programs = some P
      ∧ ∀ o, (find v s.shaders = some o ∨ find f s.shaders = some o) →
          o.deleteStatus = false → o.compileStatus = false → P.linkStatus = false := by
  simp only [programStage] at h ⊢
  generalize hs0 : (if held ≠ 0 then glDeleteProgram held s else s) = s0 at h ⊢
  have keep : ∀ k o, find k s.shaders = some o → o.deleteStatus = false →
      find k s0.shaders = some o := by
    intro k o hk hd
    rw [← hs0]
    split_ifs
    · exact glDeleteProgram_shaders _ _ _ _ hk hd
    · exact hk
  have h1 := glCreateProgram_self T s0 h
  have hsh1 := (glCreateProgram_shaders T s0).1
  generalize (glCreateProgram T s0).1 = p at h h1 ⊢
  generalize (glCreateProgram T s0).2 = s1 at h1 hsh1 ⊢
  obtain ⟨P2, hP2, hsub2, hin2⟩ := glAttachShader_self p v s1 _ h1
  have hsh2 := (glAttachShader_shaders p v s1).1
  generalize glAttachShader p v s1 = s2 at hP2 hsh2 ⊢
  obtain ⟨P3, hP3, hsub3, hin3⟩ := glAttachShader_self p f s2 _ hP2
  have hsh3 := (glAttachShader_shaders p f s2).1
  generalize glAttachShader p f s2 = s3 at hP3 hsh3 ⊢
  refine ⟨_, glLinkProgram_self T p s3 P3 hP3, ?_⟩
  intro o ho hd hc
  rcases ho with ho | ho
  · have hv : find v s1.shaders = some o := by rw [hsh1]; exact keep _ _ ho hd
    have : v ∈ P3.attached := hsub3 _ (hin2 (by rw [hv]; rfl))
    exact linkResult_failed T P3 s3 v o this (by rw [hsh3, hsh2]; exact hv) hc
  · have hv : find f s2.shaders = some o := by rw [hsh2, hsh1]; exact keep _ _ ho hd
    have : f ∈ P3.attached := hin3 (by rw [hv]; rfl)
    exact linkResult_failed T P3 s3 f o this (by rw [hsh3]; exact hv) hc

theorem glDeleteShader_programs (x : GLuint) (s : State) :
    (glDeleteShader x s).programs = s.programs ∧ (glDeleteShader x s).current = s.current := by
  unfold glDeleteShader
  split
  · split_ifs <;> exact ⟨rfl, rfl⟩
  · exact ⟨rfl, rfl⟩

end OpenGL

theorem compileBlock_calls {σ : Type} (D : Driver σ) (type : GLenum) (tag code : List Char)
    (success : GLint) (infoLog : List Char) (w : World σ) :
    (compileBlock D type tag code success infoLog w).2.2.2.calls
      = w.calls ++ ([GLCall.glCreateShader type (compileBlock D type tag code success infoLog w).1,
          GLCall.glShaderSource (compileBlock D type tag code success infoLog w).1 [code],
          GLCall.glCompileShader (compileBlock D type tag code success infoLog w).1,
          GLCall.glGetShaderiv (compileBlock D type tag code success infoLog w).1
            GL_COMPILE_STATUS (compileBlock D type tag code success infoLog w).2.1]
        ++ (if (compileBlock D type tag code success infoLog w).2.1 = 0
            then [GLCall.glGetShaderInfoLog (compileBlock D type tag code success infoLog w).1 512
                    (compileBlock D type tag code success infoLog w).2.2.1]
            else [])) := by
  simp only [compileBlock, call.glCreateShader, call.glShaderSource, call.glCompileShader,
    call.glGetShaderiv, call.glGetShaderInfoLog, cout]
  split_ifs <;> simp

theorem compileBlock_out {σ : Type} (D : Driver σ) (type : GLenum) (tag code : List Char)
    (success : GLint) (infoLog : List Char) (w : World σ) :
    (compileBlock D type tag code success infoLog w).2.2.2.out
      = w.out ++ message tag (compileBlock D type tag code success infoLog w).2.1
                  (compileBlock D type tag code success infoLog w).2.2.1 := by
  simp only [compileBlock, call.glCreateShader, call.glShaderSource, call.glCompileShader,
    call.glGetShaderiv, call.glGetShaderInfoLog, cout, message]
  split_ifs <;> simp

theorem programBlock_calls {σ : Type} (D : Driver σ) (held vertex fragment : GLuint)
    (success : GLint) (infoLog : List Char) (w : World σ) :
    (programBlock D held vertex fragment success infoLog w).2.2.2.calls
      = w.calls ++ (releaseCalls held
        ++ ([GLCall.glCreateProgram (programBlock D held vertex fragment success infoLog w).1,
          GLCall.glAttachShader (programBlock D held vertex fragment success infoLog w).1 vertex,
          GLCall.glAttachShader (programBlock D held vertex fragment success infoLog w).1 fragment,
          GLCall.glLinkProgram (programBlock D held vertex fragment success infoLog w).1,
          GLCall.glGetProgramiv (programBlock D held vertex fragment success infoLog w).1
            GL_LINK_STATUS (programBlock D held vertex fragment success infoLog w).2.1]
        ++ (if (programBlock D held vertex fragment success infoLog w).2.1 = 0
            then [GLCall.glGetProgramInfoLog
                    (programBlock D held vertex fragment success infoLog w).1 512
                    (programBlock D held vertex fragment success infoLog w).2.2.1]
            else [])
        ++ [GLCall.glDeleteShader vertex, GLCall.glDeleteShader fragment])) := by
  simp only [programBlock, releaseCalls, call.glDeleteProgram, call.glCreateProgram,
    call.glAttachShader, call.glLinkProgram, call.glGetProgramiv, call.glGetProgramInfoLog,
    call.glDeleteShader, cout]
  split_ifs <;> simp

theorem programBlock_out {σ : Type} (D : Driver σ) (held vertex fragment : GLuint)
    (success : GLint) (infoLog : List Char) (w : World σ) :
    (programBlock D held vertex fragment success infoLog w).2.2.2.out
      = w.out ++ message PROGRAM_TAG (programBlock D held vertex fragment success infoLog w).2.1
                  (programBlock D held vertex fragment success infoLog w).2.2.1 := by
  simp only [programBlock, call.glDeleteProgram, call.glCreateProgram,
    call.glAttachShader, call.glLinkProgram, call.glGetProgramiv, call.glGetProgramInfoLog,
    call.glDeleteShader, cout, message]
  split_ifs <;> simp

theorem exec_calls {σ : Type} (D : Driver σ) (u : Indeterminate) (vs fs : string_view)
    (self : Shader) (w : World σ) :
    (Shader.CreateFromSource.exec D u vs fs self w).world.calls
      = w.calls ++ (vertexCalls (Shader.CreateFromSource.exec D u vs fs self w) vs
          ++ fragmentCalls (Shader.CreateFromSource.exec D u vs fs self w) fs
          ++ releaseCalls self.m_program
          ++ programCalls (Shader.CreateFromSource.exec D u vs fs self w)) := by
  rw [exec_blocks]
  simp only [vertexCalls, fragmentCalls, programCalls]
  rw [programBlock_calls, compileBlock_calls, compileBlock_calls]
  simp only [List.append_assoc]

theorem exec_out {σ : Type} (D : Driver σ) (u : Indeterminate) (vs fs : string_view)
    (self : Shader) (w : World σ) :
    (Shader.CreateFromSource.exec D u vs fs self w).world.out
      = w.out ++ (message VERTEX_TAG (Shader.CreateFromSource.exec D u vs fs self w).vertexSuccess
                    (Shader.CreateFromSource.exec D u vs fs self w).vertexLog
          ++ message FRAGMENT_TAG (Shader.CreateFromSource.exec D u vs fs self w).fragmentSuccess
                    (Shader.CreateFromSource.exec D u vs fs self w).fragmentLog
          ++ message PROGRAM_TAG (Shader.CreateFromSource.exec D u vs fs self w).linkSuccess
                    (Shader.CreateFromSource.exec D u vs fs self w).linkLog) := by
  rw [exec_blocks]
  simp only []
  rw [programBlock_out, compileBlock_out, compileBlock_out]
  simp only [List.append_assoc]

namespace OpenGL

@[simp] theorem glGetShaderiv_snd (x : GLuint) (pn : GLenum) (v : GLint) (s : State) :
    (glGetShaderiv x pn v s).2 = s := by
  unfold glGetShaderiv; split
  · split_ifs <;> rfl
  · rfl

@[simp] theorem glGetShaderInfoLog_snd (x : GLuint) (n : Nat) (l : List Char) (s : State) :
    (glGetShaderInfoLog x n l s).2 = s := by
  unfold glGetShaderInfoLog; split <;> rfl

@[simp] theorem glGetProgramiv_snd (x : GLuint) (pn : GLenum) (v : GLint) (s : State) :
    (glGetProgramiv x pn v s).2 = s := by
  unfold glGetProgramiv; split
  · split_ifs <;> rfl
  · rfl

@[simp] theorem glGetProgramInfoLog_snd (x : GLuint) (n : Nat) (l : List Char) (s : State) :
    (glGetProgramInfoLog x n l s).2 = s := by
  unfold glGetProgramInfoLog; split <;> rfl

@[simp] theorem glGetUniformLocation_snd (x : GLuint) (n : List Char) (s : State) :
    (glGetUniformLocation x n s).2 = s := by
  unfold glGetUniformLocation; split
  · split_ifs
    · split <;> rfl
    · rfl
  · rfl

theorem compileBlock_driver (T : Toolchain) (type : GLenum) (tag code : List Char)
    (success : GLint) (infoLog : List Char) (w : World State) :
    (compileBlock (driver T) type tag code success infoLog w).1
        = (shaderStage T type code w.drv).1
    ∧ (compileBlock (driver T) type tag code success infoLog w).2.1
        = (glGetShaderiv (shaderStage T type code w.drv).1 GL_COMPILE_STATUS success
            (shaderStage T type code w.drv).2).1
    ∧ (compileBlock (driver T) type tag code success infoLog w).2.2.1
        = (if (compileBlock (driver T) type tag code success infoLog w).2.1 = 0
           then (glGetShaderInfoLog (shaderStage T type code w.drv).1 512 infoLog
                  (shaderStage T type code w.drv).2).1
           else infoLog)
    ∧ (compileBlock (driver T) type tag code success infoLog w).2.2.2.drv
        = (shaderStage T type code w.drv).2 := by
  simp only [compileBlock, shaderStage, driver, call.glCreateShader, call.glShaderSource,
    call.glCompileShader, call.glGetShaderiv, call.glGetShaderInfoLog, cout]
  split_ifs <;> simp

theorem programBlock_driver (T : Toolchain) (held vertex fragment : GLuint)
    (success : GLint) (infoLog : List Char) (w : World State) :
    (programBlock (driver T) held vertex fragment success infoLog w).1
        = (programStage T held vertex fragment w.drv).1
    ∧ (programBlock (driver T) held vertex fragment success infoLog w).2.1
        = (glGetProgramiv (programStage T held vertex fragment w.drv).1 GL_LINK_STATUS success
            (programStage T held vertex fragment w.drv).2).1
    ∧ (programBlock (driver T) held vertex fragment success infoLog w).2.2.1
        = (if (programBlock (driver T) held vertex fragment success infoLog w).2.1 = 0
           then (glGetProgramInfoLog (programStage T held vertex fragment w.drv).1 512 infoLog
                  (programStage T held vertex fragment w.drv).2).1
           else infoLog)
    ∧ (programBlock (driver T) held vertex fragment success infoLog w).2.2.2.drv
        = glDeleteShader fragment (glDeleteShader vertex
            (programStage T held vertex fragment w.drv).2) := by
  simp only [programBlock, programStage, driver, call.glDeleteProgram, call.glCreateProgram,
    call.glAttachShader, call.glLinkProgram, call.glGetProgramiv, call.glGetProgramInfoLog,
    call.glDeleteShader, cout]
  split_ifs <;> simp

end OpenGL

theorem ReadAllText_eq (files : FileSystem) (path : List Char) :
    ReadAllText files path = contentsOrEmpty files path := by
  unfold ReadAllText contentsOrEmpty ifstream.mk_path stringstream.insert_rdbuf
  cases h : files path with
  | none => simp
  | some text =>
    by_cases ht : text = []
    · simp [ht]
    · simp [ht]

namespace OpenGL

/-- The locals and the final driver state of `CreateFromSource` on the
reference driver, in terms of the stages. -/
theorem exec_driver (T : Toolchain) (u : Indeterminate) (vs fs : string_view) (self : Shader)
    (w : World State) :
    let f := Shader.CreateFromSource.exec (driver T) u vs fs self w
    let V := shaderStage T GL_VERTEX_SHADER vs.data w.drv
    let F := shaderStage T GL_FRAGMENT_SHADER fs.data V.2
    let P := programStage T self.m_program V.1 F.1 F.2
    f.vertex = V.1
    ∧ f.vertexSuccess = (glGetShaderiv V.1 GL_COMPILE_STATUS u.success V.2).1
    ∧ f.vertexLog = (if f.vertexSuccess = 0 then (glGetShaderInfoLog V.1 512 u.infoLog V.2).1
                     else u.infoLog)
    ∧ f.fragment = F.1
    ∧ f.fragmentSuccess = (glGetShaderiv F.1 GL_COMPILE_STATUS f.vertexSuccess F.2).1
    ∧ f.fragmentLog = (if f.fragmentSuccess = 0
                       then (glGetShaderInfoLog F.1 512 f.vertexLog F.2).1 else f.vertexLog)
    ∧ f.self.m_program = P.1
    ∧ f.linkSuccess = (glGetProgramiv P.1 GL_LINK_STATUS f.fragmentSuccess P.2).1
    ∧ f.linkLog = (if f.linkSuccess = 0
                   then (glGetProgramInfoLog P.1 512 f.fragmentLog P.2).1 else f.fragmentLog)
    ∧ f.world.drv = glDeleteShader F.1 (glDeleteShader V.1 P.2) := by
  intro f V F P
  have e := exec_blocks (driver T) u vs fs self w
  simp only at e
  have hb1 := compileBlock_driver T GL_VERTEX_SHADER VERTEX_TAG vs.data u.success u.infoLog w
  generalize compileBlock (driver T) GL_VERTEX_SHADER VERTEX_TAG vs.data u.success
    u.infoLog w = b1 at e hb1
  have hb2 := compileBlock_driver T GL_FRAGMENT_SHADER FRAGMENT_TAG fs.data b1.2.1 b1.2.2.1
    b1.2.2.2
  generalize compileBlock (driver T) GL_FRAGMENT_SHADER FRAGMENT_TAG fs.data b1.2.1 b1.2.2.1
    b1.2.2.2 = b2 at e hb2
  have hb3 := programBlock_driver T self.m_program b1.1 b2.1 b2.2.1 b2.2.2.1 b2.2.2.2
  generalize programBlock (driver T) self.m_program b1.1 b2.1 b2.2.1 b2.2.2.1 b2.2.2.2 = b3
    at e hb3
  have ef : f = _ := e
  obtain ⟨h11, h12, h13, h14⟩ := hb1
  obtain ⟨h21, h22, h23, h24⟩ := hb2
  obtain ⟨h31, h32, h33, h34⟩ := hb3
  rw [h14] at h21 h22 h23 h24
  rw [h24] at h31 h32 h33 h34
  rw [h11] at h31 h32 h33 h34
  rw [h21] at h31 h32 h33 h34
  rw [ef]
  exact ⟨h11, h12, h13, h21, h22, h23, h31, h32, h33, h34⟩

end OpenGL

namespace OpenGL

theorem glGetShaderiv_of_find (x : GLuint) (v : GLint) (s : State) (o : ShaderObject)
    (h : find x s.shaders = some o) :
    (glGetShaderiv x GL_COMPILE_STATUS v s).1 = if o.compileStatus then 1 else 0 := by
  unfold glGetShaderiv; rw [h]; simp

theorem glGetShaderInfoLog_of_find (x : GLuint) (l : List Char) (s : State) (o : ShaderObject)
    (h : find x s.shaders = some o) :
    (glGetShaderInfoLog x 512 l s).1 = (c_str o.infoLog).take 511 := by
  unfold glGetShaderInfoLog; rw [h]; simp [writeLog]

theorem glGetProgramiv_of_find (x : GLuint) (v : GLint) (s : State) (P : ProgramObject)
    (h : find x s.programs = some P) :
    (glGetProgramiv x GL_LINK_STATUS v s).1 = if P.linkStatus then 1 else 0 := by
  unfold glGetProgramiv; rw [h]; simp

theorem glGetProgramInfoLog_of_find (x : GLuint) (l : List Char) (s : State)
    (P : ProgramObject) (h : find x s.programs = some P) :
    (glGetProgramInfoLog x 512 l s).1 = (c_str P.infoLog).take 511 := by
  unfold glGetProgramInfoLog; rw [h]; simp [writeLog]

/-- What the vertex block leaves in the locals when the driver issued a vertex
shader object. -/
theorem exec_vertex_object (T : Toolchain) (u : Indeterminate) (vs fs : string_view)
    (self : Shader) (w : World State)
    (h : (Shader.CreateFromSource.exec (driver T) u vs fs self w).vertex ≠ 0) :
    (Shader.CreateFromSource.exec (driver T) u vs fs self w).vertexSuccess
        = (if (T.compile GL_VERTEX_SHADER vs.data).1 then 1 else 0)
    ∧ ((Shader.CreateFromSource.exec (driver T) u vs fs self w).vertexSuccess = 0 →
        (Shader.CreateFromSource.exec (driver T) u vs fs self w).vertexLog
          = (c_str (T.compile GL_VERTEX_SHADER vs.data).2).take 511) := by
  obtain ⟨e1, e2, e3, -⟩ := exec_driver T u vs fs self w
  rw [e1] at h
  have hn := shaderStage_new T GL_VERTEX_SHADER vs.data w.drv h
  have hs := e2.trans (glGetShaderiv_of_find _ _ _ _ hn)
  refine ⟨hs, fun h0 => ?_⟩
  rw [e3, if_pos h0, glGetShaderInfoLog_of_find _ _ _ _ hn]

/-- What the fragment block leaves in the locals when the driver issued a
fragment shader object. -/
theorem exec_fragment_object (T : Toolchain) (u : Indeterminate) (vs fs : string_view)
    (self : Shader) (w : World State)
    (h : (Shader.CreateFromSource.exec (driver T) u vs fs self w).fragment ≠ 0) :
    (Shader.CreateFromSource.exec (driver T) u vs fs self w).fragmentSuccess
        = (if (T.compile GL_FRAGMENT_SHADER fs.data).1 then 1 else 0)
    ∧ ((Shader.CreateFromSource.exec (driver T) u vs fs self w).fragmentSuccess = 0 →
        (Shader.CreateFromSource.exec (driver T) u vs fs self w).fragmentLog
          = (c_str (T.compile GL_FRAGMENT_SHADER fs.data).2).take 511) := by
  obtain ⟨-, -, -, e4, e5, e6, -⟩ := exec_driver T u vs fs self w
  rw [e4] at h
  have hn := shaderStage_new T GL_FRAGMENT_SHADER fs.data _ h
  have hs := e5.trans (glGetShaderiv_of_find _ _ _ _ hn)
  refine ⟨hs, fun h0 => ?_⟩
  rw [e6, if_pos h0, glGetShaderInfoLog_of_find _ _ _ _ hn]

/-- The program object behind the new handle, when the driver issued one. -/
theorem exec_program_object (T : Toolchain) (u : Indeterminate) (vs fs : string_view)
    (self : Shader) (w : World State)
    (h : (Shader.CreateFromSource.exec (driver T) u vs fs self w).self.m_program ≠ 0) :
    ∃ P : ProgramObject,
      find (Shader.CreateFromSource.exec (driver T) u vs fs self w).self.m_program
          (Shader.CreateFromSource.exec (driver T) u vs fs self w).world.drv.programs = some P
      ∧ (Shader.CreateFromSource.exec (driver T) u vs fs self w).linkSuccess
          = (if P.linkStatus then 1 else 0)
      ∧ ((Shader.CreateFromSource.exec (driver T) u vs fs self w).linkSuccess = 0 →
          (Shader.CreateFromSource.exec (driver T) u vs fs self w).linkLog
            = (c_str P.infoLog).take 511)
      ∧ ((Shader.CreateFromSource.exec (driver T) u vs fs self w).vertex ≠ 0 →
          (Shader.CreateFromSource.exec (driver T) u vs fs self w).vertexSuccess = 0 →
          P.linkStatus = false)
      ∧ ((Shader.CreateFromSource.exec (driver T) u vs fs self w).fragment ≠ 0 →
          (Shader.CreateFromSource.exec (driver T) u vs fs self w).fragmentSuccess = 0 →
          P.linkStatus = false) := by
  obtain ⟨e1, e2, -, e4, e5, -, e7, e8, e9, e10⟩ := exec_driver T u vs fs self w
  rw [e7] at h
  obtain ⟨P, hP, hfail⟩ := programStage_self T _ _ _ _ h
  refine ⟨P, ?_, ?_, ?_, ?_, ?_⟩
  · rw [e10, (glDeleteShader_programs _ _).1, (glDeleteShader_programs _ _).1, e7]
    exact hP
  · rw [e8]; exact glGetProgramiv_of_find _ _ _ _ hP
  · intro h0
    rw [e9, if_pos h0]; exact glGetProgramInfoLog_of_find _ _ _ _ hP
  · intro hv h0
    rw [e1] at hv
    have hn := shaderStage_new T GL_VERTEX_SHADER vs.data w.drv hv
    have hc : (T.compile GL_VERTEX_SHADER vs.data).1 = false := by
      rw [e2, glGetShaderiv_of_find _ _ _ _ hn] at h0
      simpa using h0
    have hne : (shaderStage T GL_VERTEX_SHADER vs.data w.drv).1
        ≠ (shaderStage T GL_FRAGMENT_SHADER fs.data
            (shaderStage T GL_VERTEX_SHADER vs.data w.drv).2).1 := by
      intro e
      by_cases hz : (shaderStage T GL_FRAGMENT_SHADER fs.data
            (shaderStage T GL_VERTEX_SHADER vs.data w.drv).2).1 = 0
      · exact hv (e.trans hz)
      · have := (shaderStage_fresh T GL_FRAGMENT_SHADER fs.data _ hz).1
        rw [← e, hn] at this
        cases this
    have hk := shaderStage_other T GL_FRAGMENT_SHADER fs.data
      (shaderStage T GL_VERTEX_SHADER vs.data w.drv).2 _ hne
    exact hfail _ (Or.inl (hk.trans hn)) rfl hc
  · intro hf h0
    rw [e4] at hf
    have hn := shaderStage_new T GL_FRAGMENT_SHADER fs.data _ hf
    have hc : (T.compile GL_FRAGMENT_SHADER fs.data).1 = false := by
      rw [e5, glGetShaderiv_of_find _ _ _ _ hn] at h0
      simpa using h0
    exact hfail _ (Or.inr hn) rfl hc

/-- The only program a `CreateFromSource` call can add to the driver is the one
whose handle the instance holds afterwards. -/
theorem exec_programs_domain (T : Toolchain) (u : Indeterminate) (vs fs : string_view)
    (self : Shader) (w : World State) (q : GLuint)
    (h : isProgram (Shader.CreateFromSource.exec (driver T) u vs fs self w).world.drv q = true) :
    q = (Shader.CreateFromSource.exec (driver T) u vs fs self w).self.m_program
      ∨ isProgram w.drv q = true := by
  obtain ⟨-, -, -, -, -, -, e7, -, -, e10⟩ := exec_driver T u vs fs self w
  unfold isProgram at h ⊢
  rw [e10, (glDeleteShader_programs _ _).1, (glDeleteShader_programs _ _).1] at h
  rcases programStage_domain T _ _ _ _ q h with h1 | h1
  · left; rw [e7]; exact h1
  · right
    rw [(shaderStage_programs _ _ _ _).1, (shaderStage_programs _ _ _ _).1] at h1
    exact h1

end OpenGL

open OpenGL

theorem programsCreated_exec {σ : Type} (D : Driver σ) (u : Indeterminate) (vs fs : string_view)
    (self : Shader) (w : World σ) :
    programsCreated ((Shader.CreateFromSource D u vs fs self w).2.calls.drop w.calls.length)
      = [(Shader.CreateFromSource D u vs fs self w).1.m_program] := by
  simp only [Shader.CreateFromSource]
  rw [exec_calls, List.drop_left]
  generalize Shader.CreateFromSource.exec D u vs fs self w = f
  unfold vertexCalls fragmentCalls releaseCalls programCalls programsCreated
  split_ifs <;> simp

theorem message_of_ne_zero (tag : List Char) (s : GLint) (l : List Char) (h : s ≠ 0) :
    message tag s l = [] := by
  simp [message, h]

theorem reportsLinked_of_find (s : State) (p : GLuint) (P : ProgramObject)
    (h : find p s.programs = some P) : reportsLinked s p = P.linkStatus := by
  unfold reportsLinked
  rw [glGetProgramiv_of_find _ _ _ _ h]
  cases P.linkStatus <;> simp

theorem reportsLinked_zero (s : State) : reportsLinked s 0 = false := by
  unfold reportsLinked glGetProgramiv
  rw [find_zero]; simp

theorem message_length_le (tag : List Char) (s : GLint) (l : List Char) (h : l.length ≤ 511) :
    (message tag s l).length ≤ tag.length + 511 + 1 := by
  unfold message endl
  split_ifs
  · simp only [List.length_append, List.length_singleton]; omega
  · simp

theorem take_511_length (l : List Char) : (l.take 511).length ≤ 511 := by
  rw [List.length_take]; exact Nat.min_le_left _ _

namespace OpenGL

theorem locate_eq_none (name : List Char) (us : List Uniform)
    (h : ∀ u ∈ us, u.name ≠ name) : locate name us = none := by
  induction us with
  | nil => rfl
  | cons u us ih =>
    have h1 : u.name ≠ name := h u (List.mem_cons_self _ _)
    have h2 := ih (fun x hx => h x (List.mem_cons_of_mem _ hx))
    simp [locate, h1, h2]

theorem glGetUniformLocation_absent (p : GLuint) (name : List Char) (s : State)
    (h : ∀ P, find p s.programs = some P → ∀ u ∈ P.uniforms, u.name ≠ name) :
    (glGetUniformLocation p name s).1 = -1 := by
  unfold glGetUniformLocation
  split
  · rename_i P hP
    split_ifs
    · rw [locate_eq_none name P.uniforms (h P hP)]
    · rfl
  · rfl

theorem storeUniform_sentinel (v : UniformValue) (s : State) : storeUniform (-1) v s = s := by
  unfold storeUniform
  split <;> simp

theorem readVec4_value_ptr (v : ShaderH.vec4) : readVec4 v.value_ptr = some v := rfl

theorem readMat4_value_ptr (m : ShaderH.mat4) : readMat4 m.value_ptr = some m := rfl

/-- Storing a uniform value leaves every program object in place, with its
link status. -/
theorem storeUniform_linked (loc : GLint) (v : UniformValue) (s : State) (q : GLuint)
    (h : reportsLinked s q = true) : reportsLinked (storeUniform loc v s) q = true := by
  have hq : ∃ P, find q s.programs = some P ∧ P.linkStatus = true := by
    cases hf : find q s.programs with
    | none =>
      unfold reportsLinked glGetProgramiv at h
      rw [hf] at h; simp at h
    | some P =>
      rw [reportsLinked_of_find s q P hf] at h
      exact ⟨P, rfl, h⟩
  obtain ⟨P, hP, hl⟩ := hq
  have hq0 := find_ne_zero hP
  unfold storeUniform
  split
  · rename_i C hC
    split_ifs
    · rw [reportsLinked_of_find s q P hP, hl]
    · split
      · rename_i un hun
        split_ifs
        · by_cases e : s.current = q
          · have : C = P := by rw [e, hP] at hC; cases hC; rfl
            subst this
            rw [reportsLinked_of_find _ q
              { C with uniforms := C.uniforms.set loc.toNat { un with value := v } }
              (by simp [find_assign, hq0, e]), hl]
          · rw [reportsLinked_of_find _ q P (by simp [find_assign, e, hP]), hl]
        · rw [reportsLinked_of_find s q P hP, hl]
      · rw [reportsLinked_of_find s q P hP, hl]
  · rw [reportsLinked_of_find s q P hP, hl]

end OpenGL

namespace OpenGL

theorem makeCurrent_current (p : GLuint) (s : State) : (makeCurrent p s).current = p := by
  unfold makeCurrent
  simp only
  split_ifs
  · rfl
  · split
    · split_ifs <;> rfl
    · rfl

theorem glUseProgram_current (p : GLuint) (s : State)
    (h : p = 0 ∨ reportsLinked s p = true) : (glUseProgram p s).current = p := by
  unfold glUseProgram
  split_ifs with h0
  · rw [h0]; exact makeCurrent_current 0 s
  · rcases h with h | h
    · exact absurd h h0
    · cases hf : find p s.programs with
      | none =>
        unfold reportsLinked glGetProgramiv at h
        rw [hf] at h; simp at h
      | some P =>
        rw [reportsLinked_of_find s p P hf] at h
        simp only [h, if_true]
        exact makeCurrent_current p s

theorem uniformMatrix4fv_linked (loc : GLint) (n : Nat) (t : Bool) (value : List GLfloat)
    (s : State) (q : GLuint) (h : reportsLinked s q = true) :
    reportsLinked (glUniformMatrix4fv loc n t value s) q = true := by
  unfold glUniformMatrix4fv
  by_cases hn : n = 1
  · rw [if_pos hn]
    cases readMat4 value with
    | none => exact h
    | some m => exact storeUniform_linked _ _ _ _ h
  · rw [if_neg hn]; exact h

end OpenGL

namespace OpenGL

end OpenGL

open OpenGL

namespace OpenGL

theorem find_some_mem {α : Type} (n : GLuint) (m : List (GLuint × α)) (a : α)
    (h : find n m = some a) : n ∈ m.map Prod.fst := by
  induction m with
  | nil => simp [find] at h
  | cons e m ih =>
    unfold find at h
    split_ifs at h with hc
    · simp [hc.2]
    · simp [ih h]

theorem le_foldr_max (l : List GLuint) (n : GLuint) (h : n ∈ l) : n ≤ l.foldr max 0 := by
  induction l with
  | nil => simp at h
  | cons x l ih =>
    simp only [List.foldr_cons]
    rcases List.mem_cons.mp h with h | h
    · rw [h]; exact le_max_left _ _
    · exact le_trans (ih h) (le_max_right _ _)

/-- A toolchain that hands out `maxName s + 1` never refuses a name. -/
theorem newName_maxName (T : Toolchain) (hg : T.genName = fun s => maxName s + 1) (s : State) :
    newName T s ≠ 0 := by
  have hs : find (maxName s + 1) s.shaders = none := by
    cases hf : find (maxName s + 1) s.shaders with
    | none => rfl
    | some o =>
      have := le_foldr_max _ _ (List.mem_append_left (s.programs.map Prod.fst)
        (find_some_mem _ _ _ hf))
      exact absurd this (Nat.not_succ_le_self _)
  have hp : find (maxName s + 1) s.programs = none := by
    cases hf : find (maxName s + 1) s.programs with
    | none => rfl
    | some o =>
      have := le_foldr_max _ _ (List.mem_append_right (s.shaders.map Prod.fst)
        (find_some_mem _ _ _ hf))
      exact absurd this (Nat.not_succ_le_self _)
  unfold newName
  simp only [hg, hs, hp]
  simp

theorem shaderStage_fst (T : Toolchain) (type : GLenum) (code : List Char) (s : State)
    (h : type = GL_VERTEX_SHADER ∨ type = GL_FRAGMENT_SHADER) :
    (shaderStage T type code s).1 = newName T s := by
  simp only [shaderStage, glCreateShader, if_pos h]
  split_ifs with h0
  · exact h0.symm
  · rfl

theorem glCreateProgram_fst (T : Toolchain) (s : State) :
    (glCreateProgram T s).1 = newName T s := by
  simp only [glCreateProgram]
  split_ifs with h0
  · exact h0.symm
  · rfl

theorem glAttachShader_exact (p x : GLuint) (s : State) (P : ProgramObject) (o : ShaderObject)
    (hP : find p s.programs = some P) (ho : find x s.shaders = some o)
    (hx : x ∉ P.attached) :
    find p (glAttachShader p x s).programs
      = some { P with attached := P.attached ++ [x] } := by
  have hp := find_ne_zero hP
  unfold glAttachShader
  rw [hP, ho]
  simp [hx, find_assign, hp]

/-- The program object behind the handle of the program stage, when the two
shader names stand for distinct shader objects that are not flagged. -/
theorem programStage_exact (T : Toolchain) (held v f : GLuint) (s : State)
    (ov og : ShaderObject) (hv : find v s.shaders = some ov) (hf : find f s.shaders = some og)
    (hdv : ov.deleteStatus = false) (hdf : og.deleteStatus = false) (hne : v ≠ f)
    (h : (programStage T held v f s).1 ≠ 0) :
    find (programStage T held v f s).1 (programStage T held v f s).2.programs
      = some { attached := [v, f],
               linkStatus := ov.compileStatus && og.compileStatus && (T.link [ov, og]).ok,
               infoLog := (T.link [ov, og]).infoLog,
               deleteStatus := false,
               uniforms := if ov.compileStatus && og.compileStatus && (T.link [ov, og]).ok
                           then (T.link [ov, og]).uniforms else [] } := by
  simp only [programStage] at h ⊢
  generalize hs0 : (if held ≠ 0 then glDeleteProgram held s else s) = s0 at h ⊢
  have keep : ∀ k o, find k s.shaders = some o → o.deleteStatus = false →
      find k s0.shaders = some o := by
    intro k o hk hd
    rw [← hs0]
    split_ifs
    · exact glDeleteProgram_shaders _ _ _ _ hk hd
    · exact hk
  have h1 := glCreateProgram_self T s0 h
  have hsh1 := (glCreateProgram_shaders T s0).1
  generalize (glCreateProgram T s0).1 = p at h h1 ⊢
  generalize (glCreateProgram T s0).2 = s1 at h1 hsh1 ⊢
  have hv1 : find v s1.shaders = some ov := by rw [hsh1]; exact keep _ _ hv hdv
  have hf1 : find f s1.shaders = some og := by rw [hsh1]; exact keep _ _ hf hdf
  have h2 := glAttachShader_exact p v s1 _ ov h1 hv1 (by simp)
  have hsh2 := (glAttachShader_shaders p v s1).1
  generalize glAttachShader p v s1 = s2 at h2 hsh2 ⊢
  have hf2 : find f s2.shaders = some og := by rw [hsh2]; exact hf1
  have h3 := glAttachShader_exact p f s2 _ og h2 hf2 (by simpa using fun e => hne e.symm)
  have hsh3 := (glAttachShader_shaders p f s2).1
  generalize glAttachShader p f s2 = s3 at h3 hsh3 ⊢
  rw [glLinkProgram_self T p s3 _ h3]
  have hv3 : find v s3.shaders = some ov := by rw [hsh3, hsh2]; exact hv1
  have hf3 : find f s3.shaders = some og := by rw [hsh3]; exact hf2
  simp [linkResult, attachedObjects, hv3, hf3, Bool.and_assoc]

end OpenGL

namespace OpenGL

theorem message_diagnostic (tag : List Char) (ok : Bool) (log buf : List Char) (s : GLint)
    (hs : s = statusOf ok) (hl : s = 0 → buf = (c_str log).take 511) :
    message tag s buf = diagnostic tag ok log := by
  subst hs
  cases ok
  · simp [message, diagnostic, statusOf, hl (by simp [statusOf])]
  · simp [message, diagnostic, statusOf]

theorem diagnostic_length (tag : List Char) (ok : Bool) (log : List Char) :
    (diagnostic tag ok log).length ≤ tag.length + 511 + 1 := by
  unfold diagnostic
  cases ok
  · simp only [Bool.false_eq_true, if_false, List.length_append, endl, List.length_singleton,
      List.length_take]
    omega
  · simp

/-- The names in the locals are the names the driver issued. -/
theorem exec_issued (T : Toolchain) (u : Indeterminate) (vs fs : string_view)
    (self : Shader) (w : World State) :
    (Shader.CreateFromSource.exec (driver T) u vs fs self w).vertex
        = (issued T vs.data fs.data self.m_program w.drv).vertex
    ∧ (Shader.CreateFromSource.exec (driver T) u vs fs self w).fragment
        = (issued T vs.data fs.data self.m_program w.drv).fragment
    ∧ (Shader.CreateFromSource.exec (driver T) u vs fs self w).self.m_program
        = (issued T vs.data fs.data self.m_program w.drv).program := by
  obtain ⟨e1, -, -, e4, -, -, e7, -⟩ := exec_driver T u vs fs self w
  exact ⟨e1, e4, e7⟩

/-- The vertex step when the driver issued a vertex shader object: the status
tested is the compiler's, and the message printed is the diagnostic of the
compiler's status and log. -/
theorem exec_vertex_message (T : Toolchain) (u : Indeterminate) (vs fs : string_view)
    (self : Shader) (w : World State)
    (h : (issued T vs.data fs.data self.m_program w.drv).vertex ≠ 0) :
    (Shader.CreateFromSource.exec (driver T) u vs fs self w).vertexSuccess
        = statusOf (T.compile GL_VERTEX_SHADER vs.data).1
    ∧ message VERTEX_TAG (Shader.CreateFromSource.exec (driver T) u vs fs self w).vertexSuccess
          (Shader.CreateFromSource.exec (driver T) u vs fs self w).vertexLog
        = diagnostic VERTEX_TAG (T.compile GL_VERTEX_SHADER vs.data).1
            (T.compile GL_VERTEX_SHADER vs.data).2 := by
  rw [← (exec_issued T u vs fs self w).1] at h
  obtain ⟨h1, h2⟩ := exec_vertex_object T u vs fs self w h
  exact ⟨h1, message_diagnostic _ _ _ _ _ h1 h2⟩

/-- The fragment step when the driver issued a fragment shader object. -/
theorem exec_fragment_message (T : Toolchain) (u : Indeterminate) (vs fs : string_view)
    (self : Shader) (w : World State)
    (h : (issued T vs.data fs.data self.m_program w.drv).fragment ≠ 0) :
    (Shader.CreateFromSource.exec (driver T) u vs fs self w).fragmentSuccess
        = statusOf (T.compile GL_FRAGMENT_SHADER fs.data).1
    ∧ message FRAGMENT_TAG
          (Shader.CreateFromSource.exec (driver T) u vs fs self w).fragmentSuccess
          (Shader.CreateFromSource.exec (driver T) u vs fs self w).fragmentLog
        = diagnostic FRAGMENT_TAG (T.compile GL_FRAGMENT_SHADER fs.data).1
            (T.compile GL_FRAGMENT_SHADER fs.data).2 := by
  rw [← (exec_issued T u vs fs self w).2.1] at h
  obtain ⟨h1, h2⟩ := exec_fragment_object T u vs fs self w h
  exact ⟨h1, message_diagnostic _ _ _ _ _ h1 h2⟩

/-- The link step when the driver issued a program object: the status tested
and the message printed are those of the program object behind the new handle,
and that program is not linked when a stage whose shader object exists did not
compile. -/
theorem exec_program_message (T : Toolchain) (u : Indeterminate) (vs fs : string_view)
    (self : Shader) (w : World State)
    (h : (issued T vs.data fs.data self.m_program w.drv).program ≠ 0) :
    ∃ P : ProgramObject,
      find (Shader.CreateFromSource.exec (driver T) u vs fs self w).self.m_program
          (Shader.CreateFromSource.exec (driver T) u vs fs self w).world.drv.programs = some P
      ∧ (Shader.CreateFromSource.exec (driver T) u vs fs self w).linkSuccess
          = statusOf P.linkStatus
      ∧ message PROGRAM_TAG (Shader.CreateFromSource.exec (driver T) u vs fs self w).linkSuccess
            (Shader.CreateFromSource.exec (driver T) u vs fs self w).linkLog
          = diagnostic PROGRAM_TAG P.linkStatus P.infoLog
      ∧ ((issued T vs.data fs.data self.m_program w.drv).vertex ≠ 0 →
          (T.compile GL_VERTEX_SHADER vs.data).1 = false → P.linkStatus = false)
      ∧ ((issued T vs.data fs.data self.m_program w.drv).fragment ≠ 0 →
          (T.compile GL_FRAGMENT_SHADER fs.data).1 = false → P.linkStatus = false) := by
  obtain ⟨i1, i2, i3⟩ := exec_issued T u vs fs self w
  rw [← i3] at h
  obtain ⟨P, hP, hs, hl, hv, hf⟩ := exec_program_object T u vs fs self w h
  refine ⟨P, hP, hs, message_diagnostic _ _ _ _ _ hs hl, ?_, ?_⟩
  · intro hv0 hc
    rw [← i1] at hv0
    refine hv hv0 ?_
    rw [(exec_vertex_object T u vs fs self w hv0).1, hc]; rfl
  · intro hf0 hc
    rw [← i2] at hf0
    refine hf hf0 ?_
    rw [(exec_fragment_object T u vs fs self w hf0).1, hc]; rfl

/-- The program object behind the new handle when the driver issued all three
objects: the two shader objects attached, linked as the toolchain says of the
two sources. -/
theorem exec_linkedObject (T : Toolchain) (u : Indeterminate) (vs fs : string_view)
    (self : Shader) (w : World State)
    (h : (issued T vs.data fs.data self.m_program w.drv).all) :
    (issued T vs.data fs.data self.m_program w.drv).vertex
        ≠ (issued T vs.data fs.data self.m_program w.drv).fragment
    ∧ find (Shader.CreateFromSource.exec (driver T) u vs fs self w).self.m_program
          (Shader.CreateFromSource.exec (driver T) u vs fs self w).world.drv.programs
        = some (linkedObject T (issued T vs.data fs.data self.m_program w.drv).vertex
            (issued T vs.data fs.data self.m_program w.drv).fragment vs.data fs.data) := by
  obtain ⟨hv0, hf0, hp0⟩ := h
  obtain ⟨-, -, -, -, -, -, e7, -, -, e10⟩ := exec_driver T u vs fs self w
  simp only [issued] at hv0 hf0 hp0 ⊢
  have hvn := shaderStage_new T GL_VERTEX_SHADER vs.data w.drv hv0
  have hfn := shaderStage_new T GL_FRAGMENT_SHADER fs.data _ hf0
  have hne : (shaderStage T GL_VERTEX_SHADER vs.data w.drv).1
      ≠ (shaderStage T GL_FRAGMENT_SHADER fs.data
          (shaderStage T GL_VERTEX_SHADER vs.data w.drv).2).1 := by
    intro e
    have := (shaderStage_fresh T GL_FRAGMENT_SHADER fs.data _ hf0).1
    rw [← e, hvn] at this
    cases this
  have hvk := (shaderStage_other T GL_FRAGMENT_SHADER fs.data
      (shaderStage T GL_VERTEX_SHADER vs.data w.drv).2 _ hne).trans hvn
  have hP := programStage_exact T self.m_program _ _ _ _ _ hvk hfn rfl rfl hne hp0
  refine ⟨hne, ?_⟩
  rw [e10, (glDeleteShader_programs _ _).1, (glDeleteShader_programs _ _).1, e7]
  exact hP

/-- The output of `CreateFromSource` when the driver issued all three objects,
in terms of what the compiler and the linker say about the two sources. -/
theorem exec_created (T : Toolchain) (u : Indeterminate) (vs fs : string_view)
    (self : Shader) (w : World State)
    (h : (issued T vs.data fs.data self.m_program w.drv).all) :
    (Shader.CreateFromSource.exec (driver T) u vs fs self w).linkSuccess
        = statusOf (linksOk T vs.data fs.data)
    ∧ (Shader.CreateFromSource.exec (driver T) u vs fs self w).world.out
        = w.out ++ (diagnostic VERTEX_TAG (T.compile GL_VERTEX_SHADER vs.data).1
                      (T.compile GL_VERTEX_SHADER vs.data).2
            ++ diagnostic FRAGMENT_TAG (T.compile GL_FRAGMENT_SHADER fs.data).1
                      (T.compile GL_FRAGMENT_SHADER fs.data).2
            ++ diagnostic PROGRAM_TAG (linksOk T vs.data fs.data)
                      (linkOf T vs.data fs.data).infoLog) := by
  obtain ⟨-, hL⟩ := exec_linkedObject T u vs fs self w h
  obtain ⟨hv0, hf0, hp0⟩ := h
  obtain ⟨-, hvm⟩ := exec_vertex_message T u vs fs self w hv0
  obtain ⟨-, hfm⟩ := exec_fragment_message T u vs fs self w hf0
  obtain ⟨P, hP, hs, hpm, -⟩ := exec_program_message T u vs fs self w hp0
  rw [hL] at hP
  cases hP
  refine ⟨hs, ?_⟩
  rw [exec_out, hvm, hfm, hpm]
  rfl

/-- The content of the log buffer after a shader log query: what it held
before, or at most 511 characters. -/
theorem glGetShaderInfoLog_buffer (x : GLuint) (l : List Char) (s : State) :
    (glGetShaderInfoLog x 512 l s).1.length ≤ 511 ∨ (glGetShaderInfoLog x 512 l s).1 = l := by
  unfold glGetShaderInfoLog
  split
  · left; simp only [writeLog]; simp [List.length_take]
  · right; rfl

theorem glGetProgramInfoLog_buffer (x : GLuint) (l : List Char) (s : State) :
    (glGetProgramInfoLog x 512 l s).1.length ≤ 511
      ∨ (glGetProgramInfoLog x 512 l s).1 = l := by
  unfold glGetProgramInfoLog
  split
  · left; simp only [writeLog]; simp [List.length_take]
  · right; rfl

/-- The log text of each message is at most 511 characters long or is what
the uninitialised buffer held on entry. -/
theorem exec_buffer (T : Toolchain) (u : Indeterminate) (vs fs : string_view)
    (self : Shader) (w : World State) :
    ((Shader.CreateFromSource.exec (driver T) u vs fs self w).vertexLog.length ≤ 511
      ∨ (Shader.CreateFromSource.exec (driver T) u vs fs self w).vertexLog = u.infoLog)
    ∧ ((Shader.CreateFromSource.exec (driver T) u vs fs self w).fragmentLog.length ≤ 511
      ∨ (Shader.CreateFromSource.exec (driver T) u vs fs self w).fragmentLog = u.infoLog)
    ∧ ((Shader.CreateFromSource.exec (driver T) u vs fs self w).linkLog.length ≤ 511
      ∨ (Shader.CreateFromSource.exec (driver T) u vs fs self w).linkLog = u.infoLog) := by
  obtain ⟨-, -, e3, -, -, e6, -, -, e9, -⟩ := exec_driver T u vs fs self w
  have h1 : (Shader.CreateFromSource.exec (driver T) u vs fs self w).vertexLog.length ≤ 511
      ∨ (Shader.CreateFromSource.exec (driver T) u vs fs self w).vertexLog = u.infoLog := by
    rw [e3]
    split_ifs
    · exact glGetShaderInfoLog_buffer _ _ _
    · exact Or.inr rfl
  have h2 : (Shader.CreateFromSource.exec (driver T) u vs fs self w).fragmentLog.length ≤ 511
      ∨ (Shader.CreateFromSource.exec (driver T) u vs fs self w).fragmentLog = u.infoLog := by
    rw [e6]
    split_ifs
    · rcases glGetShaderInfoLog_buffer
        (shaderStage T GL_FRAGMENT_SHADER fs.data
          (shaderStage T GL_VERTEX_SHADER vs.data w.drv).2).1
        (Shader.CreateFromSource.exec (driver T) u vs fs self w).vertexLog
        (shaderStage T GL_FRAGMENT_SHADER fs.data
          (shaderStage T GL_VERTEX_SHADER vs.data w.drv).2).2 with h | h
      · exact Or.inl h
      · rw [h]; exact h1
    · exact h1
  refine ⟨h1, h2, ?_⟩
  rw [e9]
  split_ifs
  · rcases glGetProgramInfoLog_buffer
      (programStage T self.m_program (shaderStage T GL_VERTEX_SHADER vs.data w.drv).1
        (shaderStage T GL_FRAGMENT_SHADER fs.data
          (shaderStage T GL_VERTEX_SHADER vs.data w.drv).2).1
        (shaderStage T GL_FRAGMENT_SHADER fs.data
          (shaderStage T GL_VERTEX_SHADER vs.data w.drv).2).2).1
      (Shader.CreateFromSource.exec (driver T) u vs fs self w).fragmentLog
      (programStage T self.m_program (shaderStage T GL_VERTEX_SHADER vs.data w.drv).1
        (shaderStage T GL_FRAGMENT_SHADER fs.data
          (shaderStage T GL_VERTEX_SHADER vs.data w.drv).2).1
        (shaderStage T GL_FRAGMENT_SHADER fs.data
          (shaderStage T GL_VERTEX_SHADER vs.data w.drv).2).2).2 with h | h
    · exact Or.inl h
    · rw [h]; exact h2
  · exact h2

/-- A driver that never refuses a name issues all three objects. -/
theorem issued_all (T : Toolchain) (hN : ∀ s, newName T s ≠ 0) (vcode fcode : List Char)
    (held : GLuint) (s : State) : (issued T vcode fcode held s).all := by
  refine ⟨?_, ?_, ?_⟩
  · simp only [issued]
    rw [shaderStage_fst _ _ _ _ (Or.inl rfl)]; exact hN _
  · simp only [issued]
    rw [shaderStage_fst _ _ _ _ (Or.inr rfl)]; exact hN _
  · simp only [issued, programStage]
    rw [glCreateProgram_fst]; exact hN _

end OpenGL

/-! ### the call log as a record of the execution -/

namespace OpenGL

end OpenGL

open OpenGL

/-- The two sources reach the driver as the C strings at `data()`. -/
theorem exec_sources {σ : Type} (D : Driver σ) (u : Indeterminate) (vs fs : string_view)
    (self : Shader) (w : World σ) :
    GLCall.glShaderSource (Shader.CreateFromSource.exec D u vs fs self w).vertex [vs.data]
        ∈ (Shader.CreateFromSource D u vs fs self w).2.calls.drop w.calls.length
    ∧ GLCall.glShaderSource (Shader.CreateFromSource.exec D u vs fs self w).fragment [fs.data]
        ∈ (Shader.CreateFromSource D u vs fs self w).2.calls.drop w.calls.length := by
  simp only [Shader.CreateFromSource]
  rw [exec_calls, List.drop_left]
  generalize Shader.CreateFromSource.exec D u vs fs self w = f
  simp [vertexCalls, fragmentCalls]

/-! ## Part 5 : the claims -/

/-- Claim C1. On the reference driver, for every toolchain, driver state,
instance and source pair: when the driver issues the three objects the call
asks for (so the `glCreateProgram` call is answered with a non-zero handle),
the compiler accepts the vertex and the fragment source as the driver reads
them at `data()`, and the linker accepts the two compiled shader objects, then
after `CreateFromSource` the handle `m_program` is non-zero, it is the name
the driver issued to the one `glCreateProgram` call made during this call, the
driver reports link status success for it, the program object behind it is
the one linked from the two shader objects of this call, whose sources the
driver received in this call, the three status queries of the call wrote 1,
and nothing was added to standard output. -/
theorem C1_create_success (T : Toolchain) (u : Indeterminate) (vs fs : string_view)
    (self : Shader) (w : World State)
    (hi : (issued T vs.data fs.data self.m_program w.drv).all)
    (hv : (T.compile GL_VERTEX_SHADER vs.data).1 = true)
    (hf : (T.compile GL_FRAGMENT_SHADER fs.data).1 = true)
    (hl : (linkOf T vs.data fs.data).ok = true) :
    (Shader.CreateFromSource (driver T) u vs fs self w).1.m_program ≠ 0
    ∧ (Shader.CreateFromSource (driver T) u vs fs self w).1.m_program
        = (issued T vs.data fs.data self.m_program w.drv).program
    ∧ programsCreated
          ((Shader.CreateFromSource (driver T) u vs fs self w).2.calls.drop w.calls.length)
        = [(Shader.CreateFromSource (driver T) u vs fs self w).1.m_program]
    ∧ reportsLinked (Shader.CreateFromSource (driver T) u vs fs self w).2.drv
        (Shader.CreateFromSource (driver T) u vs fs self w).1.m_program = true
    ∧ find (Shader.CreateFromSource (driver T) u vs fs self w).1.m_program
          (Shader.CreateFromSource (driver T) u vs fs self w).2.drv.programs
        = some { attached := [(issued T vs.data fs.data self.m_program w.drv).vertex,
                              (issued T vs.data fs.data self.m_program w.drv).fragment],
                 linkStatus := true,
                 infoLog := (linkOf T vs.data fs.data).infoLog,
                 deleteStatus := false,
                 uniforms := (linkOf T vs.data fs.data).uniforms }
    ∧ GLCall.glShaderSource (issued T vs.data fs.data self.m_program w.drv).vertex [vs.data]
        ∈ (Shader.CreateFromSource (driver T) u vs fs self w).2.calls.drop w.calls.length
    ∧ GLCall.glShaderSource (issued T vs.data fs.data self.m_program w.drv).fragment [fs.data]
        ∈ (Shader.CreateFromSource (driver T) u vs fs self w).2.calls.drop w.calls.length
    ∧ (Shader.CreateFromSource.exec (driver T) u vs fs self w).vertexSuccess = 1
    ∧ (Shader.CreateFromSource.exec (driver T) u vs fs self w).fragmentSuccess = 1
    ∧ (Shader.CreateFromSource.exec (driver T) u vs fs self w).linkSuccess = 1
    ∧ (Shader.CreateFromSource (driver T) u vs fs self w).2.out = w.out := by
  have hok : linksOk T vs.data fs.data = true := by
    simp [linksOk, hv, hf, hl]
  obtain ⟨-, hL⟩ := exec_linkedObject T u vs fs self w hi
  obtain ⟨-, hout⟩ := exec_created T u vs fs self w hi
  have hobj : linkedObject T (issued T vs.data fs.data self.m_program w.drv).vertex
      (issued T vs.data fs.data self.m_program w.drv).fragment vs.data fs.data
      = { attached := [(issued T vs.data fs.data self.m_program w.drv).vertex,
                       (issued T vs.data fs.data self.m_program w.drv).fragment],
          linkStatus := true,
          infoLog := (linkOf T vs.data fs.data).infoLog,
          deleteStatus := false,
          uniforms := (linkOf T vs.data fs.data).uniforms } := by
    simp [linkedObject, hok]
  rw [hobj] at hL
  have hp := (exec_issued T u vs fs self w).2.2
  obtain ⟨i1, i2, -⟩ := exec_issued T u vs fs self w
  obtain ⟨hs1, hs2⟩ := exec_sources (driver T) u vs fs self w
  rw [i1] at hs1
  rw [i2] at hs2
  refine ⟨?_, hp, programsCreated_exec (driver T) u vs fs self w, ?_, hL, hs1, hs2, ?_, ?_, ?_,
    ?_⟩
  · exact hp ▸ hi.2.2
  · exact (reportsLinked_of_find _ _ _ hL).trans rfl
  · rw [(exec_vertex_message T u vs fs self w hi.1).1, hv]; rfl
  · rw [(exec_fragment_message T u vs fs self w hi.2.1).1, hf]; rfl
  · rw [(exec_created T u vs fs self w hi).1, hok]; rfl
  · simp only [Shader.CreateFromSource]
    rw [hout, hok]
    simp [diagnostic, hv, hf]

/-- Witness for C1: the default shader pair on the sample toolchain, from the
empty driver state; the handle is 3 and names a linked program. -/
theorem C1_create_success_witness :
    (issued sampleToolchain defaultVertexView.data defaultFragmentView.data
        ({} : Shader).m_program (World.fresh State.empty).drv).all
    ∧ (sampleToolchain.compile GL_VERTEX_SHADER defaultVertexView.data).1 = true
    ∧ (sampleToolchain.compile GL_FRAGMENT_SHADER defaultFragmentView.data).1 = true
    ∧ (linkOf sampleToolchain defaultVertexView.data defaultFragmentView.data).ok = true
    ∧ (Shader.CreateFromSource (driver sampleToolchain) sampleLocals defaultVertexView
        defaultFragmentView {} (World.fresh State.empty)).1.m_program = 3
    ∧ reportsLinked (Shader.CreateFromSource (driver sampleToolchain) sampleLocals
          defaultVertexView defaultFragmentView {} (World.fresh State.empty)).2.drv
        (Shader.CreateFromSource (driver sampleToolchain) sampleLocals defaultVertexView
          defaultFragmentView {} (World.fresh State.empty)).1.m_program = true
    ∧ GLCall.glShaderSource
          (issued sampleToolchain defaultVertexView.data defaultFragmentView.data
            ({} : Shader).m_program (World.fresh State.empty).drv).vertex
          [defaultVertexView.data]
        ∈ (Shader.CreateFromSource (driver sampleToolchain) sampleLocals defaultVertexView
            defaultFragmentView {} (World.fresh State.empty)).2.calls.drop
              (World.fresh State.empty).calls.length
    ∧ (Shader.CreateFromSource (driver sampleToolchain) sampleLocals defaultVertexView
        defaultFragmentView {} (World.fresh State.empty)).2.out
        = (World.fresh State.empty).out :=
  ⟨by decide, by decide, by decide, by decide, by decide,
   (C1_create_success sampleToolchain sampleLocals defaultVertexView defaultFragmentView {}
      (World.fresh State.empty) (by decide) (by decide) (by decide) (by decide)).2.2.2.1,
   (C1_create_success sampleToolchain sampleLocals defaultVertexView defaultFragmentView {}
      (World.fresh State.empty) (by decide) (by decide) (by decide) (by decide)).2.2.2.2.2.1,
   (C1_create_success sampleToolchain sampleLocals defaultVertexView defaultFragmentView {}
      (World.fresh State.empty) (by decide) (by decide) (by decide) (by decide)).2.2.2.2.2.2.2.2.2.2⟩

/-- Counterexample to C5: the two paths are views of the first six characters
of the buffers `p.vert.bak` and `p.frag.bak`. No file `p.vert` or `p.frag` is
readable, but `CreateFromFile` hands `data()` to `ReadAllText`, which opens
`p.vert.bak` and `p.frag.bak`: on the sample toolchain it compiles and links
their contents and prints nothing, while `CreateFromSource` on two empty
strings prints three diagnostics and passes other sources to the driver. -/
theorem C5_counterexample :
    backupFiles prefixVertexPath.chars = none
    ∧ backupFiles prefixFragmentPath.chars = none
    ∧ String.mk prefixVertexPath.data = "p.vert.bak"
    ∧ (Shader.CreateFromFile (driver sampleToolchain) backupFiles sampleLocals
        prefixVertexPath prefixFragmentPath {} (World.fresh State.empty)).2.out = []
    ∧ (Shader.CreateFromSource (driver sampleToolchain) sampleLocals emptyView emptyView {}
        (World.fresh State.empty)).2.out ≠ []
    ∧ GLCall.glShaderSource 1 ["void main() \x7b\x7d".toList] ∈
        (Shader.CreateFromFile (driver sampleToolchain) backupFiles sampleLocals
          prefixVertexPath prefixFragmentPath {} (World.fresh State.empty)).2.calls
    ∧ GLCall.glShaderSource 1 [[]] ∈
        (Shader.CreateFromSource (driver sampleToolchain) sampleLocals emptyView emptyView {}
          (World.fresh State.empty)).2.calls
    ∧ (Shader.CreateFromFile (driver sampleToolchain) backupFiles sampleLocals
        prefixVertexPath prefixFragmentPath {} (World.fresh State.empty)).2.calls
      ≠ (Shader.CreateFromSource (driver sampleToolchain) sampleLocals emptyView emptyView {}
        (World.fresh State.empty)).2.calls := by
  decide

/-- Claim C5, amended. For every driver, file system, instance and pair of
paths each of which is followed by its terminator (the C string at `data()` is
the characters of the view, as for a view of a `std::string` or of a string
literal): `CreateFromFile` gives exactly the result (instance, driver state,
driver calls, output) of `CreateFromSource` on the contents of the two files
the paths name, a file that cannot be opened being read as the empty string;
in particular, when neither path names a readable file it gives the result of
`CreateFromSource` on two empty strings. The files read are those the C
strings at `vertexPath.data()` and `fragmentPath.data()` name. -/
theorem C5_create_from_file {σ : Type} (D : Driver σ) (files : FileSystem) (u : Indeterminate)
    (vertexPath fragmentPath : string_view) (self : Shader) (w : World σ)
    (hv : vertexPath.data = vertexPath.chars) (hf : fragmentPath.data = fragmentPath.chars) :
    Shader.CreateFromFile D files u vertexPath fragmentPath self w
        = Shader.CreateFromSource D u
            (string_view.of_string (contentsOrEmpty files vertexPath.data))
            (string_view.of_string (contentsOrEmpty files fragmentPath.data)) self w
    ∧ Shader.CreateFromFile D files u vertexPath fragmentPath self w
        = CreateFromFile_spec D files u vertexPath fragmentPath self w
    ∧ (files vertexPath.chars = none → files fragmentPath.chars = none →
        Shader.CreateFromFile D files u vertexPath fragmentPath self w
          = Shader.CreateFromSource D u emptyView emptyView self w) := by
  refine ⟨?_, ?_, ?_⟩
  · simp only [Shader.CreateFromFile, ReadAllText_eq]
  · simp only [Shader.CreateFromFile, CreateFromFile_spec, ReadAllText_eq, hv, hf]
  · intro h1 h2
    simp only [Shader.CreateFromFile, ReadAllText_eq, contentsOrEmpty, hv, hf, h1, h2]
    rfl

/-- Witness for C5 (amended): two paths made from string literals, in a file
system without readable files. -/
theorem C5_create_from_file_witness :
    (string_view.of_c_str "missing.vert".toList).data
        = (string_view.of_c_str "missing.vert".toList).chars
    ∧ (string_view.of_c_str "missing.frag".toList).data
        = (string_view.of_c_str "missing.frag".toList).chars
    ∧ noFiles (string_view.of_c_str "missing.vert".toList).chars = none
    ∧ noFiles (string_view.of_c_str "missing.frag".toList).chars = none
    ∧ Shader.CreateFromFile (driver sampleToolchain) noFiles sampleLocals
          (string_view.of_c_str "missing.vert".toList)
          (string_view.of_c_str "missing.frag".toList) {} (World.fresh State.empty)
        = Shader.CreateFromSource (driver sampleToolchain) sampleLocals emptyView emptyView {}
            (World.fresh State.empty) :=
  ⟨by decide, by decide, rfl, rfl,
   (C5_create_from_file (driver sampleToolchain) noFiles sampleLocals
      (string_view.of_c_str "missing.vert".toList)
      (string_view.of_c_str "missing.frag".toList) {} (World.fresh State.empty)
      (by decide) (by decide)).2.2 rfl rfl⟩

/-- Claim C6. On the reference driver, when the program the handle names has
no active uniform called `uniformName`, each of the three `SetUniform`
overloads returns the instance unchanged and changes nothing in the world but
the call log: the driver state (hence every uniform value of every program)
and the output are the same, and the two calls logged are the location query,
answered with -1, and the write at location -1. -/
theorem C6_absent_uniform (T : Toolchain) (uniformName : List Char) (self : Shader)
    (w : World State)
    (h : ∀ P, find self.m_program w.drv.programs = some P →
          ∀ un ∈ P.uniforms, un.name ≠ uniformName)
    (m : mat4) (v : vec4) (x : GLfloat) :
    Shader.SetUniform_mat4 (driver T) uniformName m self w
        = (self, { w with calls := w.calls
            ++ [GLCall.glGetUniformLocation self.m_program uniformName (-1),
                GLCall.glUniformMatrix4fv (-1) 1 false m.value_ptr] })
    ∧ Shader.SetUniform_vec4 (driver T) uniformName v self w
        = (self, { w with calls := w.calls
            ++ [GLCall.glGetUniformLocation self.m_program uniformName (-1),
                GLCall.glUniform4fv (-1) 1 v.value_ptr] })
    ∧ Shader.SetUniform_float (driver T) uniformName x self w
        = (self, { w with calls := w.calls
            ++ [GLCall.glGetUniformLocation self.m_program uniformName (-1),
                GLCall.glUniform1fv (-1) 1 [x]] }) := by
  have hl := glGetUniformLocation_absent self.m_program uniformName w.drv h
  refine ⟨?_, ?_, ?_⟩
  · simp [Shader.SetUniform_mat4, call.glGetUniformLocation, call.glUniformMatrix4fv, driver,
      hl, glUniformMatrix4fv, readMat4_value_ptr, storeUniform_sentinel, GL_FALSE]
  · simp [Shader.SetUniform_vec4, call.glGetUniformLocation, call.glUniform4fv, driver,
      hl, glUniform4fv, readVec4_value_ptr, storeUniform_sentinel]
  · simp [Shader.SetUniform_float, call.glGetUniformLocation, call.glUniform1fv, driver,
      hl, glUniform1fv, storeUniform_sentinel]

/-- Witness for C6: a name the program of the sample state does not have. -/
theorem C6_absent_uniform_witness :
    (∀ P, find (Shader.mk 1).m_program (World.fresh sampleState).drv.programs = some P →
          ∀ un ∈ P.uniforms, un.name ≠ "missing".toList)
    ∧ Shader.SetUniform_float (driver sampleToolchain) "missing".toList one (Shader.mk 1)
          (World.fresh sampleState)
        = (Shader.mk 1, { World.fresh sampleState with calls := (World.fresh sampleState).calls
            ++ [GLCall.glGetUniformLocation 1 "missing".toList (-1),
                GLCall.glUniform1fv (-1) 1 [one]] }) :=
  have h : ∀ P, find (Shader.mk 1).m_program (World.fresh sampleState).drv.programs = some P →
          ∀ un ∈ P.uniforms, un.name ≠ "missing".toList := by
    intro P hP
    have : P = { attached := [], linkStatus := true, infoLog := [], deleteStatus := false,
                 uniforms := [{ name := "m".toList, value := UniformValue.mat4 zeroMat4 },
                   { name := "v".toList,
                     value := UniformValue.vec4 { x := 0, y := 0, z := 0, w := 0 } },
                   { name := "x".toList, value := UniformValue.float 0 }] } := by
      simp [World.fresh, sampleState, find] at hP
      exact hP.symm
    subst this
    decide
  ⟨h, (C6_absent_uniform sampleToolchain "missing".toList (Shader.mk 1)
        (World.fresh sampleState) h identity { x := 0, y := 0, z := 0, w := 0 } one).2.2⟩


/-- Counterexample to C7: after a `CreateFromSource` call whose sources do not
compile the instance holds the handle of a program that is not linked; `Use()`
on it is rejected by the driver, and the current program (0) differs from the
handle. -/
theorem C7_counterexample :
    (Shader.CreateFromSource (driver sampleToolchain) sampleLocals emptyView emptyView {}
        (World.fresh State.empty)).1.m_program = 3
    ∧ reportsLinked
        (Shader.CreateFromSource (driver sampleToolchain) sampleLocals emptyView emptyView {}
          (World.fresh State.empty)).2.drv 3 = false
    ∧ (Shader.Use (driver sampleToolchain)
        (Shader.CreateFromSource (driver sampleToolchain) sampleLocals emptyView emptyView {}
          (World.fresh State.empty)).1
        (Shader.CreateFromSource (driver sampleToolchain) sampleLocals emptyView emptyView {}
          (World.fresh State.empty)).2).2.drv.current = 0
    ∧ (Shader.Use (driver sampleToolchain)
        (Shader.CreateFromSource (driver sampleToolchain) sampleLocals emptyView emptyView {}
          (World.fresh State.empty)).1
        (Shader.CreateFromSource (driver sampleToolchain) sampleLocals emptyView emptyView {}
          (World.fresh State.empty)).2).2.drv.current
      ≠ (Shader.Use (driver sampleToolchain)
        (Shader.CreateFromSource (driver sampleToolchain) sampleLocals emptyView emptyView {}
          (World.fresh State.empty)).1
        (Shader.CreateFromSource (driver sampleToolchain) sampleLocals emptyView emptyView {}
          (World.fresh State.empty)).2).1.m_program := by
  decide

/-- Claim C7, amended. On the reference driver, when the handle is zero or
names a program for which the driver reports link status success, the current
program after `Use()` is the handle; `Use()` issues the single call
`glUseProgram(m_program)`, and neither `Use()` nor any `SetUniform` overload
changes the handle. In particular, when the driver reports link status success
for the program of `CreateDefaultShader`, the handle is non-zero and is the
current program after `SetUniform("modelViewProjectionMatrix", m)` followed by
`Use()`, for every matrix `m`. -/
theorem C7_use_binds_linked_program (T : Toolchain) (self : Shader) (w : World State)
    (h : self.m_program = 0 ∨ reportsLinked w.drv self.m_program = true) :
    (Shader.Use (driver T) self w).2.drv.current = self.m_program
    ∧ (Shader.Use (driver T) self w).2.calls = w.calls ++ [GLCall.glUseProgram self.m_program]
    ∧ (Shader.Use (driver T) self w).1 = self
    ∧ (∀ (name : List Char) (m : mat4), (Shader.SetUniform_mat4 (driver T) name m self w).1 = self)
    ∧ (∀ (name : List Char) (v : vec4), (Shader.SetUniform_vec4 (driver T) name v self w).1 = self)
    ∧ (∀ (name : List Char) (x : GLfloat),
        (Shader.SetUniform_float (driver T) name x self w).1 = self)
    ∧ (∀ (u : Indeterminate) (m : mat4) (w0 : World State),
        reportsLinked (CreateDefaultShader (driver T) u w0).2.drv
            (CreateDefaultShader (driver T) u w0).1.m_program = true →
        (CreateDefaultShader (driver T) u w0).1.m_program ≠ 0
        ∧ (Shader.Use (driver T)
            (Shader.SetUniform_mat4 (driver T) "modelViewProjectionMatrix".toList m
              (CreateDefaultShader (driver T) u w0).1 (CreateDefaultShader (driver T) u w0).2).1
            (Shader.SetUniform_mat4 (driver T) "modelViewProjectionMatrix".toList m
              (CreateDefaultShader (driver T) u w0).1
              (CreateDefaultShader (driver T) u w0).2).2).2.drv.current
          = (CreateDefaultShader (driver T) u w0).1.m_program) := by
  refine ⟨?_, rfl, rfl, fun _ _ => rfl, fun _ _ => rfl, fun _ _ => rfl, ?_⟩
  · exact glUseProgram_current _ _ h
  · intro u m w0 hl
    generalize CreateDefaultShader (driver T) u w0 = r at hl ⊢
    constructor
    · intro e
      rw [e, reportsLinked_zero] at hl
      cases hl
    · simp only [Shader.Use, Shader.SetUniform_mat4, call.glUseProgram,
        call.glGetUniformLocation, call.glUniformMatrix4fv, driver, glGetUniformLocation_snd]
      exact glUseProgram_current _ _ (Or.inr (uniformMatrix4fv_linked _ _ _ _ _ _ hl))

/-- Witness for C7 (amended): the default shader on the sample toolchain, with
the identity matrix. -/
theorem C7_use_binds_linked_program_witness :
    reportsLinked (CreateDefaultShader (driver sampleToolchain) sampleLocals
        (World.fresh State.empty)).2.drv
      (CreateDefaultShader (driver sampleToolchain) sampleLocals
        (World.fresh State.empty)).1.m_program = true
    ∧ (Shader.Use (driver sampleToolchain)
        (CreateDefaultShader (driver sampleToolchain) sampleLocals (World.fresh State.empty)).1
        (CreateDefaultShader (driver sampleToolchain) sampleLocals
          (World.fresh State.empty)).2).2.drv.current
      = (CreateDefaultShader (driver sampleToolchain) sampleLocals
          (World.fresh State.empty)).1.m_program
    ∧ (Shader.Use (driver sampleToolchain)
        (Shader.SetUniform_mat4 (driver sampleToolchain) "modelViewProjectionMatrix".toList
          identity
          (CreateDefaultShader (driver sampleToolchain) sampleLocals (World.fresh State.empty)).1
          (CreateDefaultShader (driver sampleToolchain) sampleLocals
            (World.fresh State.empty)).2).1
        (Shader.SetUniform_mat4 (driver sampleToolchain) "modelViewProjectionMatrix".toList
          identity
          (CreateDefaultShader (driver sampleToolchain) sampleLocals (World.fresh State.empty)).1
          (CreateDefaultShader (driver sampleToolchain) sampleLocals
            (World.fresh State.empty)).2).2).2.drv.current
      = (CreateDefaultShader (driver sampleToolchain) sampleLocals
          (World.fresh State.empty)).1.m_program :=
  ⟨by decide,
   (C7_use_binds_linked_program sampleToolchain
      (CreateDefaultShader (driver sampleToolchain) sampleLocals (World.fresh State.empty)).1
      (CreateDefaultShader (driver sampleToolchain) sampleLocals (World.fresh State.empty)).2
      (Or.inr (by decide))).1,
   ((C7_use_binds_linked_program sampleToolchain
      (CreateDefaultShader (driver sampleToolchain) sampleLocals (World.fresh State.empty)).1
      (CreateDefaultShader (driver sampleToolchain) sampleLocals (World.fresh State.empty)).2
      (Or.inr (by decide))).2.2.2.2.2.2 sampleLocals identity (World.fresh State.empty)
        (by decide)).2⟩


set_option maxRecDepth 100000 in
/-- Counterexample to C8: with a linker log of 600 characters and both stages
compiling, the call prints one message, the link diagnostic, and it is 551
characters long (39 for the tag, 511 of the log, 1 for the end of line). -/
theorem C8_counterexample :
    (verboseToolchain.compile GL_VERTEX_SHADER (string_view.of_c_str ['v']).data).1 = true
    ∧ (verboseToolchain.compile GL_FRAGMENT_SHADER (string_view.of_c_str ['f']).data).1 = true
    ∧ (linkOf verboseToolchain (string_view.of_c_str ['v']).data
        (string_view.of_c_str ['f']).data).ok = false
    ∧ (linkOf verboseToolchain (string_view.of_c_str ['v']).data
        (string_view.of_c_str ['f']).data).infoLog.length = 600
    ∧ (Shader.CreateFromSource (driver verboseToolchain) sampleLocals
        (string_view.of_c_str ['v']) (string_view.of_c_str ['f']) {}
        (World.fresh State.empty)).2.out
      = PROGRAM_TAG ++ List.replicate 511 'x' ++ endl
    ∧ (Shader.CreateFromSource (driver verboseToolchain) sampleLocals
        (string_view.of_c_str ['v']) (string_view.of_c_str ['f']) {}
        (World.fresh State.empty)).2.out.length = 551
    ∧ ¬ (Shader.CreateFromSource (driver verboseToolchain) sampleLocals
        (string_view.of_c_str ['v']) (string_view.of_c_str ['f']) {}
        (World.fresh State.empty)).2.out.length ≤ 512 := by
  decide

/-- Claim C8, amended. On the reference driver, for every toolchain, driver
state, instance and source pair, what `CreateFromSource` adds to standard
output is the vertex, the fragment and the link message in this order, each
one empty or made of its tag, the content of the log buffer, and the end of
line. For each step by itself: when the driver issued the object of the step,
its message is the diagnostic of the driver's status and log for that object,
with the log cut to the 511 characters that the 512-character buffer holds
before its terminator, whatever the length of the driver's log; so the message
has at most 42 + 511 + 1 (vertex), 44 + 511 + 1 (fragment) or 39 + 511 + 1
(link) characters. In every case, also when the object of a step was not
issued, the log text of a message is at most 511 characters long or is what
the uninitialised buffer held on entry; so when that is at most 511 characters
long, all three bounds hold. -/
theorem C8_message_bound (T : Toolchain) (u : Indeterminate) (vs fs : string_view)
    (self : Shader) (w : World State) :
    (Shader.CreateFromSource (driver T) u vs fs self w).2.out
        = w.out
          ++ message VERTEX_TAG
              (Shader.CreateFromSource.exec (driver T) u vs fs self w).vertexSuccess
              (Shader.CreateFromSource.exec (driver T) u vs fs self w).vertexLog
          ++ message FRAGMENT_TAG
              (Shader.CreateFromSource.exec (driver T) u vs fs self w).fragmentSuccess
              (Shader.CreateFromSource.exec (driver T) u vs fs self w).fragmentLog
          ++ message PROGRAM_TAG
              (Shader.CreateFromSource.exec (driver T) u vs fs self w).linkSuccess
              (Shader.CreateFromSource.exec (driver T) u vs fs self w).linkLog
    ∧ ((issued T vs.data fs.data self.m_program w.drv).vertex ≠ 0 →
        message VERTEX_TAG
            (Shader.CreateFromSource.exec (driver T) u vs fs self w).vertexSuccess
            (Shader.CreateFromSource.exec (driver T) u vs fs self w).vertexLog
          = diagnostic VERTEX_TAG (T.compile GL_VERTEX_SHADER vs.data).1
              (T.compile GL_VERTEX_SHADER vs.data).2
        ∧ (message VERTEX_TAG
            (Shader.CreateFromSource.exec (driver T) u vs fs self w).vertexSuccess
            (Shader.CreateFromSource.exec (driver T) u vs fs self w).vertexLog).length
          ≤ 42 + 511 + 1)
    ∧ ((issued T vs.data fs.data self.m_program w.drv).fragment ≠ 0 →
        message FRAGMENT_TAG
            (Shader.CreateFromSource.exec (driver T) u vs fs self w).fragmentSuccess
            (Shader.CreateFromSource.exec (driver T) u vs fs self w).fragmentLog
          = diagnostic FRAGMENT_TAG (T.compile GL_FRAGMENT_SHADER fs.data).1
              (T.compile GL_FRAGMENT_SHADER fs.data).2
        ∧ (message FRAGMENT_TAG
            (Shader.CreateFromSource.exec (driver T) u vs fs self w).fragmentSuccess
            (Shader.CreateFromSource.exec (driver T) u vs fs self w).fragmentLog).length
          ≤ 44 + 511 + 1)
    ∧ ((issued T vs.data fs.data self.m_program w.drv).program ≠ 0 →
        ∃ P : ProgramObject,
          find (Shader.CreateFromSource (driver T) u vs fs self w).1.m_program
            (Shader.CreateFromSource (driver T) u vs fs self w).2.drv.programs = some P
          ∧ message PROGRAM_TAG
              (Shader.CreateFromSource.exec (driver T) u vs fs self w).linkSuccess
              (Shader.CreateFromSource.exec (driver T) u vs fs self w).linkLog
            = diagnostic PROGRAM_TAG P.linkStatus P.infoLog
          ∧ (message PROGRAM_TAG
              (Shader.CreateFromSource.exec (driver T) u vs fs self w).linkSuccess
              (Shader.CreateFromSource.exec (driver T) u vs fs self w).linkLog).length
            ≤ 39 + 511 + 1)
    ∧ (∀ (tag : List Char) (ok : Bool) (log : List Char),
        (diagnostic tag ok log).length ≤ tag.length + 511 + 1)
    ∧ ((message VERTEX_TAG
            (Shader.CreateFromSource.exec (driver T) u vs fs self w).vertexSuccess
            (Shader.CreateFromSource.exec (driver T) u vs fs self w).vertexLog).length
          ≤ 42 + 511 + 1
        ∨ (Shader.CreateFromSource.exec (driver T) u vs fs self w).vertexLog = u.infoLog)
    ∧ ((message FRAGMENT_TAG
            (Shader.CreateFromSource.exec (driver T) u vs fs self w).fragmentSuccess
            (Shader.CreateFromSource.exec (driver T) u vs fs self w).fragmentLog).length
          ≤ 44 + 511 + 1
        ∨ (Shader.CreateFromSource.exec (driver T) u vs fs self w).fragmentLog = u.infoLog)
    ∧ ((message PROGRAM_TAG
            (Shader.CreateFromSource.exec (driver T) u vs fs self w).linkSuccess
            (Shader.CreateFromSource.exec (driver T) u vs fs self w).linkLog).length
          ≤ 39 + 511 + 1
        ∨ (Shader.CreateFromSource.exec (driver T) u vs fs self w).linkLog = u.infoLog)
    ∧ (u.infoLog.length ≤ 511 →
        (message VERTEX_TAG
            (Shader.CreateFromSource.exec (driver T) u vs fs self w).vertexSuccess
            (Shader.CreateFromSource.exec (driver T) u vs fs self w).vertexLog).length
          ≤ 42 + 511 + 1
        ∧ (message FRAGMENT_TAG
            (Shader.CreateFromSource.exec (driver T) u vs fs self w).fragmentSuccess
            (Shader.CreateFromSource.exec (driver T) u vs fs self w).fragmentLog).length
          ≤ 44 + 511 + 1
        ∧ (message PROGRAM_TAG
            (Shader.CreateFromSource.exec (driver T) u vs fs self w).linkSuccess
            (Shader.CreateFromSource.exec (driver T) u vs fs self w).linkLog).length
          ≤ 39 + 511 + 1) := by
  obtain ⟨b1, b2, b3⟩ := exec_buffer T u vs fs self w
  have bound : ∀ (tag : List Char) (s : GLint) (l : List Char),
      l.length ≤ 511 → (message tag s l).length ≤ tag.length + 511 + 1 :=
    fun tag s l h => message_length_le tag s l h
  refine ⟨?_, ?_, ?_, ?_, diagnostic_length, ?_, ?_, ?_, ?_⟩
  · simp only [Shader.CreateFromSource]
    rw [exec_out]
    simp only [List.append_assoc]
  · intro h
    have hm := (exec_vertex_message T u vs fs self w h).2
    exact ⟨hm, hm ▸ diagnostic_length VERTEX_TAG _ _⟩
  · intro h
    have hm := (exec_fragment_message T u vs fs self w h).2
    exact ⟨hm, hm ▸ diagnostic_length FRAGMENT_TAG _ _⟩
  · intro h
    obtain ⟨P, hP, -, hm, -⟩ := exec_program_message T u vs fs self w h
    exact ⟨P, hP, hm, hm ▸ diagnostic_length PROGRAM_TAG _ _⟩
  · exact b1.imp (bound VERTEX_TAG _ _) id
  · exact b2.imp (bound FRAGMENT_TAG _ _) id
  · exact b3.imp (bound PROGRAM_TAG _ _) id
  · intro hu
    refine ⟨bound VERTEX_TAG _ _ ?_, bound FRAGMENT_TAG _ _ ?_, bound PROGRAM_TAG _ _ ?_⟩
    · rcases b1 with h | h
      · exact h
      · rw [h]; exact hu
    · rcases b2 with h | h
      · exact h
      · rw [h]; exact hu
    · rcases b3 with h | h
      · exact h
      · rw [h]; exact hu

/-- Counterexample to C9: a driver that issues the vertex shader object (name
1) and then answers the two other create calls with 0. The compiler rejects
the vertex source with the log `vertex log` and would accept the fragment
source. The fragment and the link status query fail and write nothing, so the
value tested stays the 0 of the vertex query and the log queries leave the
buffer as it is: a FRAGMENT and a LINK message are printed, both carrying the
vertex log. -/
theorem C9_counterexample :
    issued scarceToolchain (string_view.of_c_str ['v']).data (string_view.of_c_str ['f']).data
        ({} : Shader).m_program (World.fresh State.empty).drv
      = { vertex := 1, fragment := 0, program := 0 }
    ∧ scarceToolchain.compile GL_VERTEX_SHADER (string_view.of_c_str ['v']).data
      = (false, "vertex log".toList)
    ∧ scarceToolchain.compile GL_FRAGMENT_SHADER (string_view.of_c_str ['f']).data = (true, [])
    ∧ String.mk (Shader.CreateFromSource (driver scarceToolchain) sampleLocals
        (string_view.of_c_str ['v']) (string_view.of_c_str ['f']) {}
        (World.fresh State.empty)).2.out
      = "ERROR::SHADER::VERTEX::COMPILATION_FAILED\nvertex log\nERROR::SHADER::FRAGMENT::COMPILATION_FAILED\nvertex log\nERROR::SHADER::PROGRAM::LINKING_FAILED\nvertex log\n" := by
  decide

/-- Claim C9, amended. On the reference driver, for every toolchain, driver
state, instance and source pair, what `CreateFromSource` adds to standard
output is the vertex, the fragment and the link message in this order, a
message being present exactly when the status tested for its step is zero and
consisting of the step's tag, the content of the log buffer, and the end of
line. For each step whose object the driver issued, the status tested is the
driver's status for that object (the compiler's for a shader source, the link
status of the program behind the new handle), so the message is present
exactly when that status is failure and carries that object's driver log cut
to 511 characters. When the driver issued all three objects, what is added is
exactly the diagnostics of the steps that fail, in terms of what the compiler
says about the two sources and the linker about the two shader objects. The
driver calls are the full sequence of all three blocks whatever the statuses
are: only the log queries and the release of the held handle depend on a
condition. The three tags are the three strings of the source and are
pairwise distinct. -/
theorem C9_diagnostics (T : Toolchain) (u : Indeterminate) (vs fs : string_view)
    (self : Shader) (w : World State) :
    (Shader.CreateFromSource (driver T) u vs fs self w).2.out
        = w.out
          ++ (if (Shader.CreateFromSource.exec (driver T) u vs fs self w).vertexSuccess = 0
              then VERTEX_TAG
                ++ (Shader.CreateFromSource.exec (driver T) u vs fs self w).vertexLog ++ endl
              else [])
          ++ (if (Shader.CreateFromSource.exec (driver T) u vs fs self w).fragmentSuccess = 0
              then FRAGMENT_TAG
                ++ (Shader.CreateFromSource.exec (driver T) u vs fs self w).fragmentLog ++ endl
              else [])
          ++ (if (Shader.CreateFromSource.exec (driver T) u vs fs self w).linkSuccess = 0
              then PROGRAM_TAG
                ++ (Shader.CreateFromSource.exec (driver T) u vs fs self w).linkLog ++ endl
              else [])
    ∧ ((issued T vs.data fs.data self.m_program w.drv).vertex ≠ 0 →
        (Shader.CreateFromSource.exec (driver T) u vs fs self w).vertexSuccess
          = statusOf (T.compile GL_VERTEX_SHADER vs.data).1
        ∧ ((T.compile GL_VERTEX_SHADER vs.data).1 = false →
            (Shader.CreateFromSource.exec (driver T) u vs fs self w).vertexLog
              = (c_str (T.compile GL_VERTEX_SHADER vs.data).2).take 511))
    ∧ ((issued T vs.data fs.data self.m_program w.drv).fragment ≠ 0 →
        (Shader.CreateFromSource.exec (driver T) u vs fs self w).fragmentSuccess
          = statusOf (T.compile GL_FRAGMENT_SHADER fs.data).1
        ∧ ((T.compile GL_FRAGMENT_SHADER fs.data).1 = false →
            (Shader.CreateFromSource.exec (driver T) u vs fs self w).fragmentLog
              = (c_str (T.compile GL_FRAGMENT_SHADER fs.data).2).take 511))
    ∧ ((issued T vs.data fs.data self.m_program w.drv).program ≠ 0 →
        ∃ P : ProgramObject,
          find (Shader.CreateFromSource (driver T) u vs fs self w).1.m_program
            (Shader.CreateFromSource (driver T) u vs fs self w).2.drv.programs = some P
          ∧ (Shader.CreateFromSource.exec (driver T) u vs fs self w).linkSuccess
              = statusOf P.linkStatus
          ∧ (P.linkStatus = false →
              (Shader.CreateFromSource.exec (driver T) u vs fs self w).linkLog
                = (c_str P.infoLog).take 511))
    ∧ ((issued T vs.data fs.data self.m_program w.drv).all →
        (Shader.CreateFromSource (driver T) u vs fs self w).2.out
          = w.out
            ++ (if (T.compile GL_VERTEX_SHADER vs.data).1 then []
                else VERTEX_TAG ++ (c_str (T.compile GL_VERTEX_SHADER vs.data).2).take 511
                  ++ endl)
            ++ (if (T.compile GL_FRAGMENT_SHADER fs.data).1 then []
                else FRAGMENT_TAG ++ (c_str (T.compile GL_FRAGMENT_SHADER fs.data).2).take 511
                  ++ endl)
            ++ (if linksOk T vs.data fs.data then []
                else PROGRAM_TAG ++ (c_str (linkOf T vs.data fs.data).infoLog).take 511
                  ++ endl))
    ∧ (Shader.CreateFromSource (driver T) u vs fs self w).2.calls
        = w.calls ++ vertexCalls (Shader.CreateFromSource.exec (driver T) u vs fs self w) vs
            ++ fragmentCalls (Shader.CreateFromSource.exec (driver T) u vs fs self w) fs
            ++ releaseCalls self.m_program
            ++ programCalls (Shader.CreateFromSource.exec (driver T) u vs fs self w)
    ∧ (Shader.CreateFromSource.exec (driver T) u vs fs self w).vertex
        = (issued T vs.data fs.data self.m_program w.drv).vertex
    ∧ (Shader.CreateFromSource.exec (driver T) u vs fs self w).fragment
        = (issued T vs.data fs.data self.m_program w.drv).fragment
    ∧ (Shader.CreateFromSource.exec (driver T) u vs fs self w).self.m_program
        = (issued T vs.data fs.data self.m_program w.drv).program
    ∧ String.mk VERTEX_TAG = "ERROR::SHADER::VERTEX::COMPILATION_FAILED\n"
    ∧ String.mk FRAGMENT_TAG = "ERROR::SHADER::FRAGMENT::COMPILATION_FAILED\n"
    ∧ String.mk PROGRAM_TAG = "ERROR::SHADER::PROGRAM::LINKING_FAILED\n"
    ∧ VERTEX_TAG ≠ FRAGMENT_TAG ∧ VERTEX_TAG ≠ PROGRAM_TAG ∧ FRAGMENT_TAG ≠ PROGRAM_TAG := by
  obtain ⟨i1, i2, i3⟩ := exec_issued T u vs fs self w
  refine ⟨?_, ?_, ?_, ?_, ?_, ?_, i1, i2, i3, rfl, rfl, rfl, by decide, by decide, by decide⟩
  · simp only [Shader.CreateFromSource]
    rw [exec_out]
    simp only [message, List.append_assoc]
  · intro h
    rw [← i1] at h
    obtain ⟨h1, h2⟩ := exec_vertex_object T u vs fs self w h
    refine ⟨h1, fun hc => h2 ?_⟩
    rw [h1, hc]; rfl
  · intro h
    rw [← i2] at h
    obtain ⟨h1, h2⟩ := exec_fragment_object T u vs fs self w h
    refine ⟨h1, fun hc => h2 ?_⟩
    rw [h1, hc]; rfl
  · intro h
    rw [← i3] at h
    obtain ⟨P, hP, h1, h2, -⟩ := exec_program_object T u vs fs self w h
    refine ⟨P, hP, h1, fun hc => h2 ?_⟩
    rw [h1, hc]; rfl
  · intro hall
    simp only [Shader.CreateFromSource]
    rw [(exec_created T u vs fs self w hall).2]
    simp only [diagnostic, List.append_assoc]
  · simp only [Shader.CreateFromSource]
    rw [exec_calls]
    simp only [List.append_assoc]

end ShaderH
